import Mathlib

/-!
Verification of the date/time resolution engine of `jarvis-mcp`
(`src/jarvis_mcp/services/datetime_service.py`).

The Python module is embedded shallowly:

* Python `datetime` values are modelled by `PyDateTime`: a proleptic
  Gregorian day number (epoch 1970-01-01 = day 0) together with the
  wall-clock second of day, microseconds, and an optional UTC offset in
  minutes (`none` models a naive datetime).  Calendar fields
  (year/month/day) are views through the standard civil-calendar
  conversions `civilFromDays` / `daysFromCivil`; `timedelta` addition is
  linear arithmetic on the day number and second of day, exactly as in
  CPython's ordinal-based implementation.
* JSON-like Python values (the nested date-context dictionaries) are
  modelled by `PyVal`; dictionaries are insertion-ordered association
  lists, with first-match lookup and in-place overwrite, matching
  `dict` semantics for the operations the module uses.
* `re`-based matching (`RELATIVE_TIME_PATTERN`, the time-string
  patterns) is embedded as deterministic matchers over character lists
  that are equivalent to the anchored/unanchored regexes on all inputs.
* The timezone database (`pytz.timezone`) is an explicit parameter
  `tzdb : String → Option PyTz`; an unknown name maps to `none`
  (modelling `UnknownTimeZoneError`).  The ambient system timezone used
  by `datetime.astimezone` on naive values is the parameter `sysOff`.
-/

namespace JarvisMcp

/-- Civil (proleptic Gregorian) date to day number, epoch 1970-01-01.
Standard days-from-civil algorithm; all divisions are floor divisions
(`Int./` is Euclidean division, which agrees with floor for the positive
literal divisors used here). -/
def daysFromCivil (y m d : Int) : Int :=
  let y2 := if m ≤ 2 then y - 1 else y
  let era := y2 / 400
  let yoe := y2 - era * 400
  let mp  := (m + 9) % 12
  let doy := (153 * mp + 2) / 5 + d - 1
  let doe := yoe * 365 + yoe / 4 - yoe / 100 + doy
  era * 146097 + doe - 719468

/-- Day number (epoch 1970-01-01) back to a civil date (year, month, day). -/
def civilFromDays (z0 : Int) : Int × Int × Int :=
  let z := z0 + 719468
  let era := z / 146097
  let doe := z - era * 146097
  let yoe := (doe - doe / 1460 + doe / 36524 - doe / 146096) / 365
  let y := yoe + era * 400
  let doy := doe - (365 * yoe + yoe / 4 - yoe / 100)
  let mp := (5 * doy + 2) / 153
  let d := doy - (153 * mp + 2) / 5 + 1
  let m := mp + (if mp < 10 then 3 else -9)
  (if m ≤ 2 then y + 1 else y, m, d)

/-- Model of a Python `datetime` value: proleptic day number, wall-clock
second of day, microsecond, and optional fixed UTC offset in minutes
(`none` = naive). -/
structure PyDateTime where
  days : Int
  sod : Int
  micro : Int
  off : Option Int
deriving Repr, DecidableEq

/-- Year field of a datetime (view through the civil conversion). -/
def PyDateTime.year (dt : PyDateTime) : Int := (civilFromDays dt.days).1

/-- Month field of a datetime. -/
def PyDateTime.month (dt : PyDateTime) : Int := (civilFromDays dt.days).2.1

/-- Day-of-month field of a datetime. -/
def PyDateTime.day (dt : PyDateTime) : Int := (civilFromDays dt.days).2.2

/-- Hour field of a datetime. -/
def PyDateTime.hour (dt : PyDateTime) : Int := dt.sod / 3600

/-- Minute field of a datetime. -/
def PyDateTime.minute (dt : PyDateTime) : Int := dt.sod % 3600 / 60

/-- Second field of a datetime. -/
def PyDateTime.second (dt : PyDateTime) : Int := dt.sod % 60

/-- Build a datetime from civil fields, as `datetime(y, m, d, h, mi, s)`. -/
def mkDateTime (y m d h mi s : Int) (micro : Int) (off : Option Int) : PyDateTime :=
  { days := daysFromCivil y m d, sod := h * 3600 + mi * 60 + s, micro := micro, off := off }

/-- Python `dt + timedelta(seconds=k)` (also covers minutes/hours/days):
adds to the wall-clock fields, keeping `tzinfo`, exactly as CPython does
on its normalized representation. -/
def addSeconds (dt : PyDateTime) (k : Int) : PyDateTime :=
  let tot := dt.days * 86400 + dt.sod + k
  { days := tot / 86400, sod := tot % 86400, micro := dt.micro, off := dt.off }

/-- Python `dt + timedelta(days=k)`. -/
def addDays (dt : PyDateTime) (k : Int) : PyDateTime := addSeconds dt (k * 86400)

/-- Python `dt.weekday()`: Monday = 0 … Sunday = 6.  Day 0 of our epoch
(1970-01-01) was a Thursday, hence the `+ 3`. -/
def PyDateTime.weekday (dt : PyDateTime) : Int := (dt.days + 3) % 7

/-- Python `dt.astimezone(timezone.utc)`.  For an aware value this
shifts by the value's own offset; for a naive value CPython interprets
the value in the system local timezone, whose fixed offset (in minutes)
is the explicit parameter `sysOff`. -/
def astimezoneUtc (sysOff : Int) (dt : PyDateTime) : PyDateTime :=
  match dt.off with
  | some o => { addSeconds dt (-(o * 60)) with off := some 0 }
  | none => { addSeconds dt (-(sysOff * 60)) with off := some 0 }

/-- Python `dt.replace(hour=h, minute=mi, second=0, microsecond=0)`. -/
def replaceTimeHM (dt : PyDateTime) (h mi : Int) : PyDateTime :=
  { dt with sod := h * 3600 + mi * 60, micro := 0 }

/-- Python `dt.replace(hour=h, minute=mi)` (seconds/microseconds kept). -/
def replaceHourMinute (dt : PyDateTime) (h mi : Int) : PyDateTime :=
  { dt with sod := h * 3600 + mi * 60 + dt.sod % 60 }

/-- Python `dt.replace(day=d)`. -/
def replaceDay (dt : PyDateTime) (d : Int) : PyDateTime :=
  { dt with days := daysFromCivil dt.year dt.month d }

/-- Python `dt.replace(month=m, day=d)`. -/
def replaceMonthDay (dt : PyDateTime) (m d : Int) : PyDateTime :=
  { dt with days := daysFromCivil dt.year m d }

/-- Python `dt.replace(microsecond=0)`. -/
def stripMicro (dt : PyDateTime) : PyDateTime := { dt with micro := 0 }

/-- Decimal digit character for `n` in `0..9` (total: reduces modulo 10,
which is the identity on every value the embedding produces). -/
def digitChar (n : Int) : Char := Char.ofNat (48 + n.toNat % 10)

/-- Two fixed decimal digits, as printed by `%02d`-style formatting. -/
def pad2 (n : Int) : List Char := [digitChar (n / 10), digitChar n]

/-- Four fixed decimal digits, as printed by `%Y` (years are in
`1..9999` for Python datetimes). -/
def pad4 (n : Int) : List Char :=
  [digitChar (n / 1000), digitChar (n / 100), digitChar (n / 10), digitChar n]

/-- Characters of `dt.strftime("%Y-%m-%d")`. -/
def fmtDateChars (dt : PyDateTime) : List Char :=
  pad4 dt.year ++ ['-'] ++ pad2 dt.month ++ ['-'] ++ pad2 dt.day

/-- Python `dt.strftime("%Y-%m-%d")`. -/
def fmtDate (dt : PyDateTime) : String := String.mk (fmtDateChars dt)

/-- Characters of the `HH:MM:SS` time part of an ISO rendering. -/
def fmtTimeChars (dt : PyDateTime) : List Char :=
  pad2 dt.hour ++ [':'] ++ pad2 dt.minute ++ [':'] ++ pad2 dt.second

/-- Rendering of a UTC instant with trailing `Z`: the result of
`dt.isoformat().replace("+00:00", "Z")` for an aware UTC `dt` with zero
microseconds, and likewise of `strftime("%Y-%m-%dT%H:%M:%SZ")`. -/
def fmtIsoZ (dt : PyDateTime) : String :=
  String.mk (fmtDateChars dt ++ ['T'] ++ fmtTimeChars dt ++ ['Z'])

/-- Python idiom `X.astimezone(pytz.UTC).replace(microsecond=0)
.isoformat().replace("+00:00", "Z")`, used throughout the module. -/
def toUtcIsoZ (sysOff : Int) (dt : PyDateTime) : String :=
  fmtIsoZ (stripMicro (astimezoneUtc sysOff dt))

/-! ## JSON-like Python values -/

/-- JSON-serializable Python values, as passed to and produced by the
date-context functions.  Dictionaries are insertion-ordered association
lists. -/
inductive PyVal where
  | vnone : PyVal
  | vstr : String → PyVal
  | vint : Int → PyVal
  | vbool : Bool → PyVal
  | vlist : List PyVal → PyVal
  | vdict : List (String × PyVal) → PyVal
deriving Repr

/-- First-match association-list lookup (Python `dict` keys are unique,
so first match is the match). -/
def dictFind : List (String × PyVal) → String → Option PyVal
  | [], _ => none
  | (k, v) :: t, key => if k = key then some v else dictFind t key

/-- Python `d[key] = v`: overwrite in place if the key exists (keeping
its position, as `dict` does), else append. -/
def dictSet : List (String × PyVal) → String → PyVal → List (String × PyVal)
  | [], key, v => [(key, v)]
  | (k, w) :: t, key, v => if k = key then (key, v) :: t else (k, w) :: dictSet t key v

/-- Python `obj.get(key)` for a value that may or may not be a dict
(the module only calls `.get` on values it has checked or defaulted to
dicts). -/
def PyVal.get (v : PyVal) (key : String) : Option PyVal :=
  match v with
  | .vdict es => dictFind es key
  | _ => none

/-- Python `obj.get(key, default)`. -/
def PyVal.getD (v : PyVal) (key : String) (d : PyVal) : PyVal :=
  (v.get key).getD d

/-- Python truthiness of the values that occur in date contexts. -/
def pyTruthy : PyVal → Bool
  | .vnone => false
  | .vstr s => s ≠ ""
  | .vint n => n ≠ 0
  | .vbool b => b
  | .vlist xs => !xs.isEmpty
  | .vdict es => !es.isEmpty

/-! ## String helpers (over character lists, as CPython operates on
code points) -/

/-- Python `str.strip()` whitespace set (the ASCII part, which covers
every string the module produces or matches on). -/
def isPyWs (c : Char) : Bool :=
  c = ' ' ∨ c = '\t' ∨ c = '\n' ∨ c = '\r' ∨ c = Char.ofNat 11 ∨ c = Char.ofNat 12

/-- Python `str.strip()`. -/
def pyStrip (l : List Char) : List Char :=
  ((l.dropWhile isPyWs).reverse.dropWhile isPyWs).reverse

/-- One step of `re.sub(r"\s+", "_", text)`: the flag records whether
the previous character was whitespace (so a run collapses to one `_`). -/
def collapseWsAux : Bool → List Char → List Char
  | _, [] => []
  | prevWs, c :: t =>
    if isPyWs c then
      (if prevWs then collapseWsAux true t else '_' :: collapseWsAux true t)
    else c :: collapseWsAux false t

/-- Python `re.sub(r"\s+", "_", text)`. -/
def collapseWs (l : List Char) : List Char := collapseWsAux false l

/-- Python `normalize_date_key`: strip, lowercase, collapse whitespace
runs to `_`, replace `:` with `_`. -/
def normalize_date_key (raw : String) : String :=
  let text := (pyStrip raw.toList).map Char.toLower
  String.mk ((collapseWs text).map (fun c => if c = ':' then '_' else c))

/-- Python `s.replace("Z", "+00:00")` (replaces every occurrence). -/
def replaceZChars : List Char → List Char
  | [] => []
  | c :: t => if c = 'Z' then '+' :: '0' :: '0' :: ':' :: '0' :: '0' :: replaceZChars t
              else c :: replaceZChars t

/-- Python `s.endswith("Z")`. -/
def endsWithZ (l : List Char) : Bool :=
  match l.reverse with
  | 'Z' :: _ => true
  | _ => false

/-- The normalization step of the module before `fromisoformat`:
`s.replace("Z", "+00:00") if s.endswith("Z") else s`. -/
def pyNormalizeZ (s : String) : String :=
  let l := s.toList
  if endsWithZ l then String.mk (replaceZChars l) else s

/-! ## ISO-8601 parsing (`datetime.fromisoformat`) -/

/-- Read exactly `n` decimal digits, returning their value. -/
def readDigits : Nat → List Char → Option (Int × List Char)
  | 0, l => some (0, l)
  | _ + 1, [] => none
  | n + 1, c :: t =>
    if c.isDigit then
      match readDigits n t with
      | some (v, rest) => some ((c.toNat - 48 : Int) * (10 ^ n : Nat) + v, rest)
      | none => none
    else none

/-- Leap-year test of the Gregorian calendar. -/
def isLeapYear (y : Int) : Bool := y % 4 = 0 ∧ (y % 100 ≠ 0 ∨ y % 400 = 0)

/-- Number of days in a month. -/
def daysInMonth (y m : Int) : Int :=
  if m = 2 then (if isLeapYear y then 29 else 28)
  else if m = 4 ∨ m = 6 ∨ m = 9 ∨ m = 11 then 30
  else 31

/-- Parse an optional fractional-seconds part `.d{1,6}` into
microseconds. -/
def readFraction : List Char → Option (Int × List Char)
  | '.' :: t =>
    let ds := t.takeWhile Char.isDigit
    let rest := t.dropWhile Char.isDigit
    if ds.length = 0 ∨ 6 < ds.length then none
    else
      match readDigits ds.length ds with
      | some (v, _) => some (v * ((10 : Int) ^ (6 - ds.length)), rest)
      | none => none
  | l => some (0, l)

/-- Parse the timezone suffix of an ISO string: empty (naive), `Z`, or
`±HH:MM`. -/
def readOffset : List Char → Option (Option Int)
  | [] => some none
  | ['Z'] => some (some 0)
  | c :: t =>
    if c = '+' ∨ c = '-' then
      match readDigits 2 t with
      | some (oh, rest1) =>
        match rest1 with
        | ':' :: rest2 =>
          match readDigits 2 rest2 with
          | some (om, []) =>
            if oh ≤ 23 ∧ om ≤ 59 then
              some (some (if c = '-' then -(oh * 60 + om) else oh * 60 + om))
            else none
          | _ => none
        | _ => none
      | none => none
    else none

/-- Parse the `HH:MM[:SS[.ffffff]][offset]` part after the date. -/
def parseIsoTime (y m d : Int) (l : List Char) : Option PyDateTime :=
  match readDigits 2 l with
  | some (h, rest1) =>
    match rest1 with
    | ':' :: rest2 =>
      match readDigits 2 rest2 with
      | some (mi, rest3) =>
        let contSec : Option (Int × Int × List Char) :=
          match rest3 with
          | ':' :: rest4 =>
            match readDigits 2 rest4 with
            | some (s, rest5) =>
              match readFraction rest5 with
              | some (f, rest6) => some (s, f, rest6)
              | none => none
            | none => none
          | _ => some (0, 0, rest3)
        match contSec with
        | some (s, f, rest6) =>
          match readOffset rest6 with
          | some off =>
            if h ≤ 23 ∧ mi ≤ 59 ∧ s ≤ 59 then
              some (mkDateTime y m d h mi s f off)
            else none
          | none => none
        | none => none
      | none => none
    | _ => none
  | none => none

/-- Model of `datetime.fromisoformat` on the grammar the module feeds
it: `YYYY-MM-DD[THH:MM[:SS[.ffffff]][Z|±HH:MM]]`.  Returns `none` on
any other input (modelling the raised `ValueError`). -/
def parseIso (s : String) : Option PyDateTime :=
  match readDigits 4 s.toList with
  | some (y, rest1) =>
    match rest1 with
    | '-' :: rest2 =>
      match readDigits 2 rest2 with
      | some (m, rest3) =>
        match rest3 with
        | '-' :: rest4 =>
          match readDigits 2 rest4 with
          | some (d, rest5) =>
            if 1 ≤ m ∧ m ≤ 12 ∧ 1 ≤ d ∧ d ≤ daysInMonth y m ∧ 1 ≤ y ∧ y ≤ 9999 then
              match rest5 with
              | [] => some (mkDateTime y m d 0 0 0 0 none)
              | 'T' :: rest6 => parseIsoTime y m d rest6
              | _ => none
            else none
          | none => none
        | _ => none
      | none => none
    | _ => none
  | none => none

/-! ## Time-string parsing and modifiers -/

/-- Matcher for `re.match(r"(\d+)_(\d+)(am|pm)", s)`: an unanchored
prefix match (trailing characters are allowed), digits taken greedily,
returning (hour digits, minute digits, is-pm). -/
def matchTimeHM (l : List Char) : Option (Int × Int × Bool) :=
  let ds1 := l.takeWhile Char.isDigit
  let r1 := l.dropWhile Char.isDigit
  if ds1.isEmpty then none
  else
    match r1 with
    | '_' :: r2 =>
      let ds2 := r2.takeWhile Char.isDigit
      let r3 := r2.dropWhile Char.isDigit
      if ds2.isEmpty then none
      else
        match readDigits ds1.length ds1, readDigits ds2.length ds2 with
        | some (h, _), some (m, _) =>
          match r3 with
          | 'a' :: 'm' :: _ => some (h, m, false)
          | 'p' :: 'm' :: _ => some (h, m, true)
          | _ => none
        | _, _ => none
    | _ => none

/-- Matcher for `re.match(r"(\d+)(am|pm)", s)`: prefix match, digits
taken greedily. -/
def matchTimeH (l : List Char) : Option (Int × Bool) :=
  let ds1 := l.takeWhile Char.isDigit
  let r1 := l.dropWhile Char.isDigit
  if ds1.isEmpty then none
  else
    match readDigits ds1.length ds1 with
    | some (h, _) =>
      match r1 with
      | 'a' :: 'm' :: _ => some (h, false)
      | 'p' :: 'm' :: _ => some (h, true)
      | _ => none
    | none => none

/-- 12-hour to 24-hour conversion as written in the module: `pm` adds
12 unless the hour is 12; `12am` becomes 0. -/
def to24Hour (h : Int) (isPm : Bool) : Int :=
  if isPm ∧ h ≠ 12 then h + 12
  else if ¬ isPm ∧ h = 12 then 0
  else h

/-- Python `parse_time_string`: try `(\d+)_(\d+)(am|pm)`, then
`(\d+)(am|pm)`, falling back to `(0, 0)`. -/
def parse_time_string (time_str : String) : Int × Int :=
  match matchTimeHM time_str.toList with
  | some (h, m, isPm) => (to24Hour h isPm, m)
  | none =>
    match matchTimeH time_str.toList with
    | some (h, isPm) => (to24Hour h isPm, 0)
    | none => (0, 0)

/-- The fixed time-of-day table of `apply_time_modifier`. -/
def timeMap (modifier : String) : Option Int :=
  if modifier = "morning" then some 7
  else if modifier = "afternoon" then some 13
  else if modifier = "evening" then some 18
  else if modifier = "night" then some 21
  else if modifier = "noon" then some 12
  else if modifier = "midnight" then some 0
  else none

/-- Python `s.startswith("at_")`. -/
def startsWithAt (s : String) : Bool :=
  match s.toList with
  | 'a' :: 't' :: '_' :: _ => true
  | _ => false

/-- Python `s[3:]` for an `at_`-prefixed key. -/
def dropAt (s : String) : String := String.mk (s.toList.drop 3)

/-- Python `apply_time_modifier`: parse the base instant (mapping a
trailing `Z` to `+00:00` first), apply a fixed named slot or an
`at_...` time, and render as UTC with trailing `Z`.  `sysOff` is the
system timezone offset used by `astimezone` on naive values. -/
def apply_time_modifier (sysOff : Int) (base_datetime modifier : String) : Option String :=
  match parseIso (pyNormalizeZ base_datetime) with
  | none => none
  | some dt =>
    let dt2 :=
      match timeMap modifier with
      | some h => replaceTimeHM dt h 0
      | none =>
        if startsWithAt modifier then
          let hm := parse_time_string (dropAt modifier)
          replaceTimeHM dt hm.1 hm.2
        else dt
    some (toUtcIsoZ sysOff dt2)

/-! ## Relative time resolution -/

/-- Unit of the relative-offset grammar. -/
inductive RelUnit where
  | minutes | hours | days
deriving Repr, DecidableEq

/-- Matcher for the anchored regex
`^in_(\d+)_(minutes|hours|days)(?:_(\d+)_(minutes))?$`.  Digits are
taken greedily (equivalent to the regex since a maximal digit run
followed by anything but `_` admits no shorter match either), and the
alternation is deterministic (the three units start with distinct
letters). -/
def matchRelative (key : String) : Option (Int × RelUnit × Option Int) :=
  match key.toList with
  | 'i' :: 'n' :: '_' :: rest =>
    let ds := rest.takeWhile Char.isDigit
    let r1 := rest.dropWhile Char.isDigit
    if ds.isEmpty then none
    else
      match readDigits ds.length ds with
      | none => none
      | some (n, _) =>
        match r1 with
        | '_' :: r2 =>
          let unitRest : Option (RelUnit × List Char) :=
            if ['m', 'i', 'n', 'u', 't', 'e', 's'].isPrefixOf r2 then
              some (RelUnit.minutes, r2.drop 7)
            else if ['h', 'o', 'u', 'r', 's'].isPrefixOf r2 then
              some (RelUnit.hours, r2.drop 5)
            else if ['d', 'a', 'y', 's'].isPrefixOf r2 then
              some (RelUnit.days, r2.drop 4)
            else none
          match unitRest with
          | none => none
          | some (u, r3) =>
            match r3 with
            | [] => some (n, u, none)
            | '_' :: r4 =>
              let ds2 := r4.takeWhile Char.isDigit
              let r5 := r4.dropWhile Char.isDigit
              if ds2.isEmpty then none
              else
                match readDigits ds2.length ds2 with
                | none => none
                | some (m2, _) =>
                  if r5 = ['_', 'm', 'i', 'n', 'u', 't', 'e', 's'] then
                    some (n, u, some m2)
                  else none
            | _ => none
        | _ => none
  | _ => none

/-- The reference-instant selection of `resolve_relative_time`:
`date_context.get("current", {}).get("datetime") or
date_context.get("current", {}).get("utc_start_of_day")`, with Python
truthiness (`None` and the empty string are falsy).  The module then
calls `.endswith`/`fromisoformat` on the value, so only string values
flow (non-string truthy values would raise upstream and are outside
the embedding). -/
def nowStrOf (date_context : PyVal) : Option String :=
  let current := date_context.getD "current" (.vdict [])
  let a := current.getD "datetime" .vnone
  let chosen := if pyTruthy a then a else current.getD "utc_start_of_day" .vnone
  if pyTruthy chosen then
    match chosen with
    | .vstr s => some s
    | _ => none
  else none

/-- Minutes denoted by one step of a relative unit. -/
def RelUnit.minutesPer : RelUnit → Int
  | .minutes => 1
  | .hours => 60
  | .days => 1440

/-- Python `resolve_relative_time`: resolve `in_N_unit[_M_minutes]`
against the current reference instant. -/
def resolve_relative_time (sysOff : Int) (key : String) (date_context : PyVal) :
    Option String :=
  match matchRelative key with
  | none => none
  | some (n, u, mOpt) =>
    match nowStrOf date_context with
    | none => none
    | some now_str =>
      match parseIso (pyNormalizeZ now_str) with
      | none => none
      | some now =>
        let offsetMinutes := n * u.minutesPer + (match mOpt with | some m2 => m2 | none => 0)
        some (toUtcIsoZ sysOff (addSeconds now (offsetMinutes * 60)))

/-! ## Context flattening -/

/-- Helper for the bucket extraction: the `utc_start_of_day` strings of
the dict items of a list value. -/
def bucketDates (items : List PyVal) : List String :=
  items.filterMap fun item =>
    match item.get "utc_start_of_day" with
    | some (.vstr s) => some s
    | _ => none

/-- Fold one `relative_dates` entry into the flat map. -/
def flattenRelativeEntry (flat : List (String × PyVal)) (e : String × PyVal) :
    List (String × PyVal) :=
  match e.2.get "utc_start_of_day" with
  | some (.vstr s) => dictSet flat e.1 (.vstr s)
  | _ =>
    match e.2.get "datetime" with
    | some (.vstr s) => dictSet flat e.1 (.vstr s)
    | _ => flat

/-- Fold one bucket entry (`weekend`/`weeks`/`months`/`years`) into the
flat map. -/
def flattenBucketEntry (flat : List (String × PyVal)) (e : String × PyVal) :
    List (String × PyVal) :=
  match e.2 with
  | .vlist items =>
    let dates := bucketDates items
    if dates.isEmpty then flat
    else dictSet flat e.1 (.vlist (dates.map PyVal.vstr))
  | _ => flat

/-- Fold one `weekdays` entry into the flat map. -/
def flattenWeekdayEntry (flat : List (String × PyVal)) (e : String × PyVal) :
    List (String × PyVal) :=
  match e.2.get "utc_start_of_day" with
  | some (.vstr s) => dictSet flat e.1 (.vstr s)
  | _ => flat

/-- Fold one `weeks.this_week` list item into the flat map, synthesizing
`this_<day>` keys. -/
def flattenThisWeekItem (flat : List (String × PyVal)) (entry : PyVal) :
    List (String × PyVal) :=
  match entry.get "day" with
  | some (.vstr day) =>
    match entry.get "utc_start_of_day" with
    | some (.vstr s) =>
      dictSet flat ("this_" ++ String.mk ((pyStrip day.toList).map Char.toLower)) (.vstr s)
    | _ => flat
  | _ => flat

/-- Fold one `time_expressions` entry into the flat map. -/
def flattenTimeExprEntry (flat : List (String × PyVal)) (e : String × PyVal) :
    List (String × PyVal) :=
  match e.2 with
  | .vstr s => dictSet flat (normalize_date_key e.1) (.vstr s)
  | _ => flat

/-- Entries of a value when it is a dict (Python `isinstance(v, dict)`
guard followed by `.items()` iteration). -/
def dictEntries (v : PyVal) : List (String × PyVal) :=
  match v with
  | .vdict es => es
  | _ => []

/-- Python `flatten_date_context`: flatten the nested snapshot into a
single-level map from normalized key to a string or list of strings. -/
def flatten_date_context (nested_context : PyVal) : List (String × PyVal) :=
  match nested_context with
  | .vdict _ =>
    let flat : List (String × PyVal) := []
    -- current → "today"
    let flat :=
      match (nested_context.getD "current" (.vdict [])).get "utc_start_of_day" with
      | some (.vstr s) => dictSet flat "today" (.vstr s)
      | _ => flat
    -- relative_dates
    let flat :=
      (dictEntries (nested_context.getD "relative_dates" (.vdict []))).foldl
        flattenRelativeEntry flat
    -- bucket lists
    let flat :=
      (dictEntries (nested_context.getD "weekend" (.vdict []))).foldl flattenBucketEntry flat
    let flat :=
      (dictEntries (nested_context.getD "weeks" (.vdict []))).foldl flattenBucketEntry flat
    let flat :=
      (dictEntries (nested_context.getD "months" (.vdict []))).foldl flattenBucketEntry flat
    let flat :=
      (dictEntries (nested_context.getD "years" (.vdict []))).foldl flattenBucketEntry flat
    -- weekdays
    let flat :=
      (dictEntries (nested_context.getD "weekdays" (.vdict []))).foldl flattenWeekdayEntry flat
    -- weeks.this_week
    let thisWeek :=
      match (nested_context.getD "weeks" (.vdict [])).getD "this_week" (.vlist []) with
      | .vlist items => items
      | _ => []
    let flat := thisWeek.foldl flattenThisWeekItem flat
    -- time_expressions
    let flat :=
      (dictEntries (nested_context.getD "time_expressions" (.vdict []))).foldl
        flattenTimeExprEntry flat
    flat
  | _ => []

/-! ## Main resolution -/

/-- The reserved time-of-day modifier tokens. -/
def isTimeModifierKey (key : String) : Bool :=
  key = "morning" ∨ key = "afternoon" ∨ key = "evening" ∨ key = "night" ∨
    key = "noon" ∨ key = "midnight" ∨ startsWithAt key

/-- The generic-lookup part of the main resolution loop: list values
contribute their string elements, scalar strings are appended, missing
keys are recorded as unresolved unless they are time modifiers. -/
def resolveLookup (flat : List (String × PyVal)) (acc : List String × List String)
    (key : String) : List String × List String :=
  match dictFind flat key with
  | some (.vlist vs) =>
    (acc.1 ++ vs.filterMap (fun v => match v with | .vstr s => some s | _ => none), acc.2)
  | some (.vstr s) => (acc.1 ++ [s], acc.2)
  | _ =>
    if isTimeModifierKey key then acc
    else (acc.1, acc.2 ++ [key])

/-- One iteration of the main resolution loop of `resolve_date_keys`:
relative-time resolution first (appending a truthy result), else the
generic lookup. -/
def resolveStep (sysOff : Int) (date_context : PyVal) (flat : List (String × PyVal))
    (acc : List String × List String) (key : String) : List String × List String :=
  match resolve_relative_time sysOff key date_context with
  | some r =>
    if r ≠ "" then (acc.1 ++ [r], acc.2)
    else resolveLookup flat acc key
  | none => resolveLookup flat acc key

/-- The date-key selection loop: the first normalized key whose
flattened value is a scalar string. -/
def findDateKey (flat : List (String × PyVal)) : List String → Option String
  | [] => none
  | k :: t =>
    match dictFind flat k with
    | some (.vstr _) => some k
    | _ => findDateKey flat t

/-- The time-key selection loop: the first normalized key that is a
reserved modifier or starts with `at_`. -/
def findTimeKey : List String → Option String
  | [] => none
  | k :: t => if isTimeModifierKey k then some k else findTimeKey t

/-- The date+time combination step of `resolve_date_keys`. -/
def combineStep (sysOff : Int) (flat : List (String × PyVal))
    (normalized_keys : List String) (resolved : List String) : List String :=
  match findDateKey flat normalized_keys, findTimeKey normalized_keys with
  | some date_key, some time_key =>
    if date_key ≠ "" ∧ time_key ≠ "" then
      match dictFind flat date_key with
      | some (.vstr base) =>
        match apply_time_modifier sysOff base time_key with
        | some c => if c ≠ "" then resolved ++ [c] else resolved
        | none => resolved
      | some (.vlist entries) =>
        entries.foldl
          (fun acc entry =>
            match entry with
            | .vstr e =>
              match apply_time_modifier sysOff e time_key with
              | some c => if c ≠ "" then acc ++ [c] else acc
              | none => acc
            | _ => acc)
          resolved
      | _ => resolved
    else resolved
  | _, _ => resolved

/-- Worker of the order-preserving deduplication, carrying the set of
strings already seen. -/
def dedupFirstAux (seen : List String) : List String → List String
  | [] => []
  | x :: t => if x ∈ seen then dedupFirstAux seen t else x :: dedupFirstAux (x :: seen) t

/-- Order-preserving deduplication, keeping first occurrences. -/
def dedupFirst (l : List String) : List String := dedupFirstAux [] l

/-- Python `resolve_date_keys`: resolve date keys to datetime strings,
returning `(resolved, unresolved)`. -/
def resolve_date_keys (sysOff : Int) (date_keys : List PyVal) (date_context : PyVal) :
    List String × List String :=
  if date_keys.isEmpty then ([], [])
  else
    let normalized_keys :=
      date_keys.filterMap fun k =>
        match k with
        | .vstr s => some (normalize_date_key s)
        | _ => none
    let flat := flatten_date_context date_context
    let acc := normalized_keys.foldl (resolveStep sysOff date_context flat) ([], [])
    let resolved := combineStep sysOff flat normalized_keys acc.1
    (dedupFirst resolved, acc.2)

/-! ## Context generation -/

/-- Abstract model of a `pytz` timezone object: its display name, its
UTC offset in minutes as a function of the instant (covering DST), and
its DST amount in minutes. -/
structure PyTz where
  name : String
  offAt : PyDateTime → Int
  dstAt : PyDateTime → Int

/-- The `pytz.UTC` singleton. -/
def pytzUTC : PyTz := { name := "UTC", offAt := fun _ => 0, dstAt := fun _ => 0 }

/-- `tz.localize(naive_dt)`: attach the zone's offset, keeping the wall
clock. -/
def localizeTz (tz : PyTz) (dt : PyDateTime) : PyDateTime :=
  { dt with off := some (tz.offAt dt) }

/-- `dt.astimezone(tz)` for an abstract zone: convert to UTC (using the
system offset `sysOff` if `dt` is naive), then shift into the zone. -/
def astimezoneTz (sysOff : Int) (tz : PyTz) (dt : PyDateTime) : PyDateTime :=
  let utc := astimezoneUtc sysOff dt
  { addSeconds utc (tz.offAt utc * 60) with off := some (tz.offAt utc) }

/-- The inner helper `get_utc_start_of_day` of the generator: UTC start
of day of `date_obj`'s calendar date in the user's timezone, falling
back to literal midnight UTC when the timezone is absent or unknown.
`tzdb` models `pytz.timezone` (`none` = `UnknownTimeZoneError`). -/
def get_utc_start_of_day (tzdb : String → Option PyTz) (sysOff : Int)
    (date_obj : PyDateTime) (tz_str : Option String) : String :=
  match tz_str with
  | none => fmtIsoZ { date_obj with sod := 0, micro := 0 }
  | some ts =>
    if ts = "" then fmtIsoZ { date_obj with sod := 0, micro := 0 }
    else
      match tzdb ts with
      | none => fmtIsoZ { date_obj with sod := 0, micro := 0 }
      | some user_tz =>
        let start_of_day : PyDateTime := { date_obj with sod := 0, micro := 0 }
        let utc_start :=
          match start_of_day.off with
          | none => astimezoneUtc sysOff (localizeTz user_tz start_of_day)
          | some _ => astimezoneUtc sysOff start_of_day
        fmtIsoZ utc_start

/-- The `last_night` ISO string: yesterday at 19:00 local, converted to
UTC; on an unknown timezone, the literal `%Y-%m-%dT19:00:00Z` rendering
of the local value. -/
def lastNightIso (tzdb : String → Option PyTz) (sysOff : Int)
    (last_night : PyDateTime) (timezone_str : String) : String :=
  match tzdb timezone_str with
  | some user_tz =>
    let last_night_utc :=
      match last_night.off with
      | none => astimezoneUtc sysOff (localizeTz user_tz last_night)
      | some _ => astimezoneUtc sysOff last_night
    fmtIsoZ (stripMicro last_night_utc)
  | none => fmtIsoZ { last_night with sod := 19 * 3600, micro := 0 }

/-- The weekend block of the generator: (this Saturday, this Sunday,
last Saturday, last Sunday, next Saturday, next Sunday), case-split on
the current weekday exactly as in the source. -/
def weekendDts (now : PyDateTime) :
    PyDateTime × PyDateTime × PyDateTime × PyDateTime × PyDateTime × PyDateTime :=
  if now.weekday = 5 then
    (now, addDays now 1, addDays now (-7), addDays now (-6), addDays now 7, addDays now 8)
  else if now.weekday = 6 then
    (addDays now (-1), now, addDays now (-8), addDays now (-7), addDays now 6, addDays now 7)
  else
    let days_until_saturday := (5 - now.weekday) % 7
    let this_saturday := addDays now days_until_saturday
    let this_sunday := addDays this_saturday 1
    let days_since_saturday := now.weekday + 2
    let last_saturday := addDays now (-days_since_saturday)
    let last_sunday := addDays last_saturday 1
    (this_saturday, this_sunday, last_saturday, last_sunday,
      addDays this_saturday 7, addDays this_sunday 7)

/-- English weekday name for `strftime("%A")` (Monday = 0). -/
def weekdayName (w : Int) : String :=
  if w = 0 then "Monday" else if w = 1 then "Tuesday" else if w = 2 then "Wednesday"
  else if w = 3 then "Thursday" else if w = 4 then "Friday" else if w = 5 then "Saturday"
  else "Sunday"

/-- English month name for `strftime("%B")` (1 = January). -/
def monthName (m : Int) : String :=
  if m = 1 then "January" else if m = 2 then "February" else if m = 3 then "March"
  else if m = 4 then "April" else if m = 5 then "May" else if m = 6 then "June"
  else if m = 7 then "July" else if m = 8 then "August" else if m = 9 then "September"
  else if m = 10 then "October" else if m = 11 then "November" else "December"

/-- Python `dt.strftime("%A, %B %d %Y")`. -/
def fmtLongDate (dt : PyDateTime) : String :=
  weekdayName dt.weekday ++ ", " ++ monthName dt.month ++ " " ++
    String.mk (pad2 dt.day) ++ " " ++ String.mk (pad4 dt.year)

/-- Python `dt.strftime("%I:%M %p")`. -/
def fmtTime12 (dt : PyDateTime) : String :=
  String.mk (pad2 ((dt.hour + 11) % 12 + 1)) ++ ":" ++ String.mk (pad2 dt.minute) ++
    (if dt.hour < 12 then " AM" else " PM")

/-- Model of `datetime.strptime(dt.strftime("%Y-%m-%d"), "%Y-%m-%d")`:
re-parsing a date the generator itself formatted yields the naive
midnight of the same civil date. -/
def strptimeRoundTrip (dt : PyDateTime) : PyDateTime :=
  { days := dt.days, sod := 0, micro := 0, off := none }

/-- The lowercase weekday names used for the `weekdays` buckets. -/
def weekday_names : List String :=
  ["monday", "tuesday", "wednesday", "thursday", "friday", "saturday", "sunday"]

/-- One `weekdays` entry: `{"date": ..., "utc_start_of_day": ...}` for
the date `start + i` days, with the `utc_start_of_day` computed from
the re-parsed (naive) date string as in the source. -/
def weekdayEntry (tzdb : String → Option PyTz) (sysOff : Int) (timezone_str : String)
    (start : PyDateTime) (pre : String) (i : Nat) (day : String) : String × PyVal :=
  let d := addDays start i
  (pre ++ day,
    .vdict [("date", .vstr (fmtDate d)),
            ("utc_start_of_day",
              .vstr (get_utc_start_of_day tzdb sysOff (strptimeRoundTrip d) (some timezone_str)))])

/-- A weekend bucket item `{"day": ..., "date": ..., "utc_start_of_day": ...}`. -/
def weekendItem (tzdb : String → Option PyTz) (sysOff : Int) (timezone_str : String)
    (day : String) (d : PyDateTime) : PyVal :=
  .vdict [("day", .vstr day), ("date", .vstr (fmtDate d)),
          ("utc_start_of_day", .vstr (get_utc_start_of_day tzdb sysOff d (some timezone_str)))]

/-- A week-list item for `weeks.this_week` / `next_week` / `last_week`,
with the display prefix applied to the weekday name. -/
def weekItem (tzdb : String → Option PyTz) (sysOff : Int) (timezone_str : String)
    (pre : String) (start : PyDateTime) (i : Nat) : PyVal :=
  let d := addDays start i
  .vdict [("day", .vstr (pre ++ weekdayName d.weekday)), ("date", .vstr (fmtDate d)),
          ("utc_start_of_day", .vstr (get_utc_start_of_day tzdb sysOff d (some timezone_str)))]

/-- A month/year bucket item `{"date": ..., "utc_start_of_day": ...}`. -/
def dateItem (tzdb : String → Option PyTz) (sysOff : Int) (timezone_str : String)
    (d : PyDateTime) : PyVal :=
  .vdict [("date", .vstr (fmtDate d)),
          ("utc_start_of_day", .vstr (get_utc_start_of_day tzdb sysOff d (some timezone_str)))]

/-- The `to_utc_iso` helper of `_generate_time_expressions`: localize a
naive value in the user timezone (when one is given) and render in UTC
with trailing `Z`.  The generator only passes aware values, so the
naive branch (where an unknown zone would raise upstream) is modelled
by the system-offset conversion. -/
def toUtcIsoExpr (tzdb : String → Option PyTz) (sysOff : Int) (timezone_str : String)
    (dt : PyDateTime) : String :=
  match dt.off with
  | none =>
    if timezone_str ≠ "" then
      match tzdb timezone_str with
      | some user_tz => toUtcIsoZ sysOff (localizeTz user_tz dt)
      | none => toUtcIsoZ sysOff dt
    else toUtcIsoZ sysOff dt
  | some _ => toUtcIsoZ sysOff dt

/-- The per-hour exact-time entries of `_generate_time_expressions`
(`at {h}am/pm`, half hours, and quarter hours for selected hours). -/
def hourExprs (tzdb : String → Option PyTz) (sysOff : Int) (timezone_str : String)
    (today : PyDateTime) (hour : Nat) : List (String × PyVal) :=
  let render := toUtcIsoExpr tzdb sysOff timezone_str
  let am_hour : Int := if hour ≠ 12 then (hour : Int) else 0
  let pm_hour : Int := if hour = 12 then (hour : Int) else (hour : Int) + 12
  let base : List (String × PyVal) :=
    [("at " ++ toString hour ++ "am", .vstr (render (replaceHourMinute today am_hour 0))),
     ("at " ++ toString hour ++ "pm", .vstr (render (replaceHourMinute today pm_hour 0))),
     ("at " ++ toString hour ++ ":30am", .vstr (render (replaceHourMinute today am_hour 30))),
     ("at " ++ toString hour ++ ":30pm", .vstr (render (replaceHourMinute today pm_hour 30)))]
  if hour = 9 ∨ hour = 10 ∨ hour = 11 ∨ hour = 1 ∨ hour = 2 ∨ hour = 3 then
    base ++
      [("at " ++ toString hour ++ ":15am", .vstr (render (replaceHourMinute today am_hour 15))),
       ("at " ++ toString hour ++ ":45am", .vstr (render (replaceHourMinute today am_hour 45))),
       ("at " ++ toString hour ++ ":15pm", .vstr (render (replaceHourMinute today pm_hour 15))),
       ("at " ++ toString hour ++ ":45pm", .vstr (render (replaceHourMinute today pm_hour 45)))]
  else base

/-- Python `_generate_time_expressions`: the natural-language time
table for today/tomorrow/yesterday plus the exact-time entries. -/
def generate_time_expressions (tzdb : String → Option PyTz) (sysOff : Int)
    (now : PyDateTime) (timezone_str : String) : List (String × PyVal) :=
  let render := toUtcIsoExpr tzdb sysOff timezone_str
  let today : PyDateTime := { now with sod := 0, micro := 0 }
  let tomorrow := addDays today 1
  let yesterday := addDays today (-1)
  [("this morning", .vstr (render (replaceHourMinute today 7 0))),
   ("this afternoon", .vstr (render (replaceHourMinute today 14 0))),
   ("this evening", .vstr (render (replaceHourMinute today 19 0))),
   ("tonight", .vstr (render (replaceHourMinute today 20 0))),
   ("during lunch", .vstr (render (replaceHourMinute today 12 0))),
   ("at breakfast", .vstr (render (replaceHourMinute today 8 0))),
   ("at dinner", .vstr (render (replaceHourMinute today 18 0))),
   ("at noon", .vstr (render (replaceHourMinute today 12 0))),
   ("at midnight", .vstr (render (replaceHourMinute today 0 0))),
   ("tomorrow morning", .vstr (render (replaceHourMinute tomorrow 7 0))),
   ("tomorrow afternoon", .vstr (render (replaceHourMinute tomorrow 14 0))),
   ("tomorrow evening", .vstr (render (replaceHourMinute tomorrow 19 0))),
   ("tomorrow night", .vstr (render (replaceHourMinute tomorrow 20 0))),
   ("yesterday morning", .vstr (render (replaceHourMinute yesterday 7 0))),
   ("yesterday afternoon", .vstr (render (replaceHourMinute yesterday 14 0))),
   ("yesterday evening", .vstr (render (replaceHourMinute yesterday 19 0))),
   ("last night", .vstr (render (replaceHourMinute yesterday 20 0)))] ++
  (List.range' 1 12).flatMap (hourExprs tzdb sysOff timezone_str today)

/-- Python `generate_date_context_object`.  `tzdb` models the timezone
database, `utcNow` the instant read by `datetime.now(pytz.UTC)` (made
aware with offset 0), `sysOff` the system timezone offset used by
`astimezone` on naive values, and `timezone_str` the optional caller
argument. -/
def generate_date_context_object (tzdb : String → Option PyTz) (sysOff : Int)
    (utcNow : PyDateTime) (timezone_str0 : Option String) : PyVal :=
  let utcNowAware : PyDateTime := { utcNow with off := some 0 }
  let resolved : String × PyDateTime × PyTz :=
    match timezone_str0 with
    | some ts =>
      if ts ≠ "" then
        match tzdb ts with
        | some user_tz => (ts, astimezoneTz sysOff user_tz utcNowAware, user_tz)
        | none => ("UTC", utcNowAware, pytzUTC)
      else ("UTC", utcNowAware, pytzUTC)
    | none => ("UTC", utcNowAware, pytzUTC)
  let timezone_str := resolved.1
  let now := resolved.2.1
  let now_tz := resolved.2.2
  let usod (d : PyDateTime) : String := get_utc_start_of_day tzdb sysOff d (some timezone_str)
  let tomorrow := addDays now 1
  let yesterday := addDays now (-1)
  let last_night : PyDateTime := { yesterday with sod := 19 * 3600, micro := 0 }
  let wk := weekendDts now
  let this_week_start := if now.weekday = 6 then now else addDays now (-(now.weekday + 1))
  let next_week_start := addDays this_week_start 7
  let last_week_start := addDays this_week_start (-7)
  let first_this := replaceDay now 1
  let last_this := addDays (replaceDay (addDays first_this 32) 1) (-1)
  let first_next := replaceDay (addDays first_this 32) 1
  let last_next := addDays (replaceDay (addDays first_next 32) 1) (-1)
  let first_last := replaceDay (addDays first_this (-1)) 1
  let last_last := addDays first_this (-1)
  let next_base := addDays now 365
  let last_base := addDays now (-365)
  .vdict
    [("current", .vdict
        [("date", .vstr (fmtLongDate now)),
         ("date_iso", .vstr (fmtDate now)),
         ("time", .vstr (fmtTime12 now)),
         ("datetime", .vstr (toUtcIsoZ sysOff now)),
         ("weekday", .vstr (weekdayName now.weekday).toLower),
         ("weekday_number", .vint now.weekday),
         ("utc_start_of_day", .vstr (usod now))]),
     ("relative_dates", .vdict
        [("tomorrow", .vdict
            [("date", .vstr (fmtDate tomorrow)),
             ("utc_start_of_day", .vstr (usod tomorrow))]),
         ("yesterday", .vdict
            [("date", .vstr (fmtDate yesterday)),
             ("utc_start_of_day", .vstr (usod yesterday))]),
         ("last_night", .vdict
            [("date", .vstr (fmtDate yesterday)),
             ("time", .vstr "19:00:00"),
             ("datetime", .vstr (lastNightIso tzdb sysOff last_night timezone_str))]),
         ("day_after_tomorrow", .vdict
            [("date", .vstr (fmtDate (addDays now 2))),
             ("utc_start_of_day", .vstr (usod (addDays now 2)))]),
         ("day_before_yesterday", .vdict
            [("date", .vstr (fmtDate (addDays now (-2)))),
             ("utc_start_of_day", .vstr (usod (addDays now (-2))))])]),
     ("weekend", .vdict
        [("this_weekend", .vlist
            [weekendItem tzdb sysOff timezone_str "Saturday" wk.1,
             weekendItem tzdb sysOff timezone_str "Sunday" wk.2.1]),
         ("next_weekend", .vlist
            [weekendItem tzdb sysOff timezone_str "Saturday" wk.2.2.2.2.1,
             weekendItem tzdb sysOff timezone_str "Sunday" wk.2.2.2.2.2]),
         ("last_weekend", .vlist
            [weekendItem tzdb sysOff timezone_str "Saturday" wk.2.2.1,
             weekendItem tzdb sysOff timezone_str "Sunday" wk.2.2.2.1])]),
     ("weeks", .vdict
        [("this_week", .vlist
            ((List.range 7).map (weekItem tzdb sysOff timezone_str "" this_week_start))),
         ("next_week", .vlist
            ((List.range 7).map (weekItem tzdb sysOff timezone_str "Next " next_week_start))),
         ("last_week", .vlist
            ((List.range 7).map (weekItem tzdb sysOff timezone_str "Last " last_week_start)))]),
     ("months", .vdict
        [("this_month", .vlist
            [dateItem tzdb sysOff timezone_str first_this,
             dateItem tzdb sysOff timezone_str last_this]),
         ("next_month", .vlist
            [dateItem tzdb sysOff timezone_str first_next,
             dateItem tzdb sysOff timezone_str last_next]),
         ("last_month", .vlist
            [dateItem tzdb sysOff timezone_str first_last,
             dateItem tzdb sysOff timezone_str last_last])]),
     ("years", .vdict
        [("this_year", .vlist
            [dateItem tzdb sysOff timezone_str (replaceMonthDay now 1 1),
             dateItem tzdb sysOff timezone_str (replaceMonthDay now 12 31)]),
         ("next_year", .vlist
            [dateItem tzdb sysOff timezone_str (replaceMonthDay next_base 1 1),
             dateItem tzdb sysOff timezone_str (replaceMonthDay next_base 12 31)]),
         ("last_year", .vlist
            [dateItem tzdb sysOff timezone_str (replaceMonthDay last_base 1 1),
             dateItem tzdb sysOff timezone_str (replaceMonthDay last_base 12 31)])]),
     ("weekdays", .vdict
        ((weekday_names.enum.map fun e =>
            weekdayEntry tzdb sysOff timezone_str next_week_start "next_" e.1 e.2) ++
         (weekday_names.enum.map fun e =>
            weekdayEntry tzdb sysOff timezone_str last_week_start "last_" e.1 e.2))),
     ("timezone", .vdict
        [("user_timezone", .vstr timezone_str),
         ("current_timezone", .vstr now_tz.name),
         ("is_dst", .vbool (now_tz.dstAt now ≠ 0 : Bool))]),
     ("time_expressions", .vdict (generate_time_expressions tzdb sysOff now timezone_str))]

/-! ## Output-shape predicate and instant collection -/

/-- A UTC instant string with second-level precision and a literal
trailing `Z`: it ends in `Tdd:dd:ddZ` (digits at the digit positions)
and contains no `+` (so no numeric offset such as `+00:00`) and no `.`
(so no sub-second part). -/
def isZSecondChars (l : List Char) : Bool :=
  match l.reverse with
  | 'Z' :: s2 :: s1 :: ':' :: m2 :: m1 :: ':' :: h2 :: h1 :: 'T' :: rest =>
    s2.isDigit && s1.isDigit && m2.isDigit && m1.isDigit && h2.isDigit && h1.isDigit &&
      rest.all (fun c => c != '+' && c != '.')
  | _ => false

/-- String form of the UTC-instant shape predicate. -/
def isZSecondString (s : String) : Bool := isZSecondChars s.toList

/-- String values of a dict value (used for `time_expressions`). -/
def strDictVals (v : PyVal) : List String :=
  match v with
  | .vdict es => es.filterMap fun e => match e.2 with | .vstr s => some s | _ => none
  | _ => []

mutual

/-- All datetime-instant strings of a generated context: values of
`utc_start_of_day` and `datetime` keys anywhere in the structure, plus
every `time_expressions` value. -/
def collectInstants : PyVal → List String
  | .vlist xs => collectList xs
  | .vdict es => collectDict es
  | _ => []

/-- Instant strings of the elements of a list value. -/
def collectList : List PyVal → List String
  | [] => []
  | x :: t => collectInstants x ++ collectList t

/-- Instant strings of the entries of a dict value. -/
def collectDict : List (String × PyVal) → List String
  | [] => []
  | e :: t =>
    (if e.1 = "utc_start_of_day" ∨ e.1 = "datetime" then
      (match e.2 with | .vstr s => [s] | _ => [])
     else if e.1 = "time_expressions" then strDictVals e.2
     else collectInstants e.2) ++ collectDict t

end

/-- Context with `relative_dates.tomorrow.utc_start_of_day` set, as in
the spec's testable properties and the repository's tests. -/
def ctxTomorrow : PyVal :=
  .vdict [("relative_dates",
    .vdict [("tomorrow", .vdict [("utc_start_of_day", .vstr "2025-01-16T00:00:00Z")])])]

/-- Context whose first key resolves to a list value. -/
def ctxWeekendList : PyVal :=
  .vdict [("weekend", .vdict [("this_weekend", .vlist
    [.vdict [("utc_start_of_day", .vstr "2025-01-18T00:00:00Z")],
     .vdict [("utc_start_of_day", .vstr "2025-01-19T00:00:00Z")]])])]

/-- Test for a scalar-string value at a key of the flattened context. -/
def isScalarStrAt (flat : List (String × PyVal)) (k : String) : Bool :=
  match dictFind flat k with
  | some (.vstr _) => true
  | _ => false

/-- The `timezone.user_timezone` field of a generated context. -/
def userTimezoneOf (ctx : PyVal) : Option PyVal :=
  (ctx.getD "timezone" (.vdict [])).get "user_timezone"

/-- A concrete one-zone timezone database for witnesses. -/
def tzdbOne : String → Option PyTz := fun s =>
  if s = "America/New_York" then
    some { name := "America/New_York", offAt := fun _ => -300, dstAt := fun _ => 0 }
  else none

/-- Instant strings contributed by one dict entry (the branch body of
`collectDict`). -/
def collectEntry (e : String × PyVal) : List String :=
  if e.1 = "utc_start_of_day" ∨ e.1 = "datetime" then
    (match e.2 with | .vstr s => [s] | _ => [])
  else if e.1 = "time_expressions" then strDictVals e.2
  else collectInstants e.2

/-- Every string of a list satisfies the UTC-instant shape. -/
def GoodStrs (l : List String) : Prop := ∀ s ∈ l, isZSecondString s = true

/-! ## Basic lemmas -/

theorem digitChar_isDigit (n : Int) : (digitChar n).isDigit = true := by
  unfold digitChar
  have h : n.toNat % 10 < 10 := Nat.mod_lt _ (by norm_num)
  set k := n.toNat % 10 with hk
  interval_cases k <;> decide

theorem digitChar_ne_plus (n : Int) : (digitChar n != '+') = true := by
  unfold digitChar
  have h : n.toNat % 10 < 10 := Nat.mod_lt _ (by norm_num)
  set k := n.toNat % 10 with hk
  interval_cases k <;> decide

theorem digitChar_ne_dot (n : Int) : (digitChar n != '.') = true := by
  unfold digitChar
  have h : n.toNat % 10 < 10 := Nat.mod_lt _ (by norm_num)
  set k := n.toNat % 10 with hk
  interval_cases k <;> decide

/-- Every rendered `...Z` instant satisfies the shape predicate. -/
theorem isZSecond_fmtIsoZ (dt : PyDateTime) : isZSecondString (fmtIsoZ dt) = true := by
  simp only [isZSecondString, fmtIsoZ, fmtDateChars, fmtTimeChars, pad2, pad4, String.toList]
  simp [isZSecondChars, List.reverse_append, digitChar_isDigit, digitChar_ne_plus,
    digitChar_ne_dot]

/-- Composing wall-clock shifts adds the shift amounts. -/
theorem addSeconds_addSeconds (dt : PyDateTime) (a b : Int) :
    addSeconds (addSeconds dt a) b = addSeconds dt (a + b) := by
  simp only [addSeconds]
  refine congrArg₂ (fun x y => PyDateTime.mk x y dt.micro dt.off) ?_ ?_ <;> omega

/-- Composing day shifts adds the day counts. -/
theorem addDays_addDays (dt : PyDateTime) (a b : Int) :
    addDays (addDays dt a) b = addDays dt (a + b) := by
  simpa [addDays, Int.add_mul] using addSeconds_addSeconds dt (a * 86400) (b * 86400)

/-- The weekday of any datetime lies in `0..6`. -/
theorem weekday_range (dt : PyDateTime) : 0 ≤ dt.weekday ∧ dt.weekday < 7 := by
  unfold PyDateTime.weekday
  omega

theorem isZSecond_toUtcIsoZ (sysOff : Int) (dt : PyDateTime) :
    isZSecondString (toUtcIsoZ sysOff dt) = true :=
  isZSecond_fmtIsoZ _

theorem isZSecond_usod (tzdb : String → Option PyTz) (sysOff : Int) (d : PyDateTime)
    (ts : Option String) : isZSecondString (get_utc_start_of_day tzdb sysOff d ts) = true := by
  unfold get_utc_start_of_day
  rcases ts with _ | ts
  · exact isZSecond_fmtIsoZ _
  · dsimp only
    split
    · exact isZSecond_fmtIsoZ _
    · rcases tzdb ts with _ | utz
      · exact isZSecond_fmtIsoZ _
      · dsimp only
        rcases h : ({ d with sod := 0, micro := 0 } : PyDateTime).off with _ | o <;>
          simp [h] <;> exact isZSecond_fmtIsoZ _

theorem isZSecond_lastNight (tzdb : String → Option PyTz) (sysOff : Int)
    (last_night : PyDateTime) (ts : String) :
    isZSecondString (lastNightIso tzdb sysOff last_night ts) = true := by
  unfold lastNightIso
  rcases tzdb ts with _ | utz
  · exact isZSecond_fmtIsoZ _
  · dsimp only
    rcases last_night.off with _ | o <;> exact isZSecond_fmtIsoZ _

theorem isZSecond_toUtcIsoExpr (tzdb : String → Option PyTz) (sysOff : Int) (ts : String)
    (dt : PyDateTime) : isZSecondString (toUtcIsoExpr tzdb sysOff ts dt) = true := by
  unfold toUtcIsoExpr
  rcases dt.off with _ | o
  · dsimp only
    split
    · rcases tzdb ts with _ | utz <;> exact isZSecond_fmtIsoZ _
    · exact isZSecond_fmtIsoZ _
  · exact isZSecond_fmtIsoZ _

/-! ## Compositional lemmas for the instant collection -/

theorem goodStrs_nil : GoodStrs [] := by
  intro s hs
  exact absurd hs (List.not_mem_nil s)

theorem goodStrs_append (a b : List String) (ha : GoodStrs a) (hb : GoodStrs b) :
    GoodStrs (a ++ b) := by
  intro s hs
  rcases List.mem_append.mp hs with h | h
  · exact ha s h
  · exact hb s h

theorem collectDict_cons (e : String × PyVal) (t : List (String × PyVal)) :
    collectDict (e :: t) = collectEntry e ++ collectDict t := rfl

theorem goodDict_nil : GoodStrs (collectDict []) := goodStrs_nil

theorem goodDict_cons (e : String × PyVal) (t : List (String × PyVal))
    (he : GoodStrs (collectEntry e)) (ht : GoodStrs (collectDict t)) :
    GoodStrs (collectDict (e :: t)) := by
  rw [collectDict_cons]
  exact goodStrs_append _ _ he ht

theorem goodVal_vdict (es : List (String × PyVal)) (h : GoodStrs (collectDict es)) :
    GoodStrs (collectInstants (.vdict es)) := h

theorem goodList_nil : GoodStrs (collectList []) := goodStrs_nil

theorem goodList_cons (x : PyVal) (t : List PyVal) (hx : GoodStrs (collectInstants x))
    (ht : GoodStrs (collectList t)) : GoodStrs (collectList (x :: t)) :=
  goodStrs_append _ _ hx ht

theorem goodVal_vlist (xs : List PyVal) (h : GoodStrs (collectList xs)) :
    GoodStrs (collectInstants (.vlist xs)) := h

/-- Values with no nested instants (strings, numbers, booleans)
contribute nothing. -/
theorem goodVal_leaf (v : PyVal) (h : collectInstants v = []) :
    GoodStrs (collectInstants v) := by
  rw [h]
  exact goodStrs_nil

theorem goodEntry_plain (k : String) (v : PyVal)
    (h1 : ¬(k = "utc_start_of_day" ∨ k = "datetime")) (h2 : ¬(k = "time_expressions"))
    (hv : GoodStrs (collectInstants v)) : GoodStrs (collectEntry (k, v)) := by
  unfold collectEntry
  rw [if_neg h1, if_neg h2]
  exact hv

/-- An entry whose value is a shaped instant string is good under any
key. -/
theorem goodEntry_instant (k str : String) (hs : isZSecondString str = true) :
    GoodStrs (collectEntry (k, .vstr str)) := by
  unfold collectEntry
  split
  · intro s hmem
    rcases List.mem_singleton.mp hmem with rfl
    exact hs
  · split
    · exact goodStrs_nil
    · exact goodVal_leaf _ rfl

theorem goodList_map {α : Type} (l : List α) (f : α → PyVal)
    (h : ∀ a, GoodStrs (collectInstants (f a))) : GoodStrs (collectList (l.map f)) := by
  induction l with
  | nil => exact goodList_nil
  | cons x t ih => exact goodList_cons _ _ (h x) ih

theorem goodDict_map {α : Type} (l : List α) (f : α → String × PyVal)
    (h : ∀ a ∈ l, GoodStrs (collectEntry (f a))) : GoodStrs (collectDict (l.map f)) := by
  induction l with
  | nil => exact goodDict_nil
  | cons x t ih =>
    exact goodDict_cons _ _ (h x (List.mem_cons_self x t))
      (ih fun a ha => h a (List.mem_cons_of_mem x ha))

theorem goodDict_append (a b : List (String × PyVal)) (ha : GoodStrs (collectDict a))
    (hb : GoodStrs (collectDict b)) : GoodStrs (collectDict (a ++ b)) := by
  induction a with
  | nil => exact hb
  | cons e t ih =>
    rw [List.cons_append]
    refine goodDict_cons _ _ ?_ (ih ?_)
    · intro s hs
      exact ha s (by rw [collectDict_cons]; exact List.mem_append_left _ hs)
    · intro s hs
      exact ha s (by rw [collectDict_cons]; exact List.mem_append_right _ hs)

theorem good_weekendItem (tzdb : String → Option PyTz) (sysOff : Int) (ts day : String)
    (d : PyDateTime) : GoodStrs (collectInstants (weekendItem tzdb sysOff ts day d)) := by
  unfold weekendItem
  refine goodVal_vdict _ (goodDict_cons _ _ ?_ (goodDict_cons _ _ ?_ (goodDict_cons _ _ ?_
    goodDict_nil)))
  · exact goodEntry_plain _ _ (by decide) (by decide) (goodVal_leaf _ rfl)
  · exact goodEntry_plain _ _ (by decide) (by decide) (goodVal_leaf _ rfl)
  · exact goodEntry_instant _ _ (isZSecond_usod ..)

theorem good_weekItem (tzdb : String → Option PyTz) (sysOff : Int) (ts pre : String)
    (start : PyDateTime) (i : Nat) :
    GoodStrs (collectInstants (weekItem tzdb sysOff ts pre start i)) := by
  unfold weekItem
  refine goodVal_vdict _ (goodDict_cons _ _ ?_ (goodDict_cons _ _ ?_ (goodDict_cons _ _ ?_
    goodDict_nil)))
  · exact goodEntry_plain _ _ (by decide) (by decide) (goodVal_leaf _ rfl)
  · exact goodEntry_plain _ _ (by decide) (by decide) (goodVal_leaf _ rfl)
  · exact goodEntry_instant _ _ (isZSecond_usod ..)

theorem good_dateItem (tzdb : String → Option PyTz) (sysOff : Int) (ts : String)
    (d : PyDateTime) : GoodStrs (collectInstants (dateItem tzdb sysOff ts d)) := by
  unfold dateItem
  refine goodVal_vdict _ (goodDict_cons _ _ ?_ (goodDict_cons _ _ ?_ goodDict_nil))
  · exact goodEntry_plain _ _ (by decide) (by decide) (goodVal_leaf _ rfl)
  · exact goodEntry_instant _ _ (isZSecond_usod ..)

theorem good_weekdayEntry (tzdb : String → Option PyTz) (sysOff : Int) (ts : String)
    (start : PyDateTime) (pre : String) (i : Nat) (day : String)
    (h1 : ¬(pre ++ day = "utc_start_of_day" ∨ pre ++ day = "datetime"))
    (h2 : ¬(pre ++ day = "time_expressions")) :
    GoodStrs (collectEntry (weekdayEntry tzdb sysOff ts start pre i day)) := by
  unfold weekdayEntry
  refine goodEntry_plain _ _ h1 h2 ?_
  refine goodVal_vdict _ (goodDict_cons _ _ ?_ (goodDict_cons _ _ ?_ goodDict_nil))
  · exact goodEntry_plain _ _ (by decide) (by decide) (goodVal_leaf _ rfl)
  · exact goodEntry_instant _ _ (isZSecond_usod ..)

theorem hourExprs_val (tzdb : String → Option PyTz) (sysOff : Int) (ts : String)
    (today : PyDateTime) (hour : Nat) (e : String × PyVal)
    (he : e ∈ hourExprs tzdb sysOff ts today hour) :
    ∃ dt, e.2 = .vstr (toUtcIsoExpr tzdb sysOff ts dt) := by
  unfold hourExprs at he
  by_cases hc : hour = 9 ∨ hour = 10 ∨ hour = 11 ∨ hour = 1 ∨ hour = 2 ∨ hour = 3
  · rw [if_pos hc] at he
    simp only [List.mem_append, List.mem_cons, List.not_mem_nil, or_false] at he
    rcases he with (rfl | rfl | rfl | rfl) | (rfl | rfl | rfl | rfl) <;> exact ⟨_, rfl⟩
  · rw [if_neg hc] at he
    simp only [List.mem_cons, List.not_mem_nil, or_false] at he
    rcases he with rfl | rfl | rfl | rfl <;> exact ⟨_, rfl⟩

theorem good_texprs (tzdb : String → Option PyTz) (sysOff : Int) (now : PyDateTime)
    (ts : String) :
    GoodStrs (strDictVals (.vdict (generate_time_expressions tzdb sysOff now ts))) := by
  intro s hs
  unfold strDictVals generate_time_expressions at hs
  dsimp only at hs
  rw [List.filterMap_append] at hs
  rcases List.mem_append.mp hs with h | h
  · simp only [List.filterMap_cons, List.filterMap_nil, List.mem_cons, List.not_mem_nil,
      or_false] at h
    rcases h with rfl | rfl | rfl | rfl | rfl | rfl | rfl | rfl | rfl | rfl | rfl | rfl | rfl |
      rfl | rfl | rfl | rfl <;> exact isZSecond_toUtcIsoExpr ..
  · rcases List.mem_filterMap.mp h with ⟨e, hmem, hmatch⟩
    rcases List.mem_flatMap.mp hmem with ⟨hr, _, hee⟩
    obtain ⟨dt, hdt⟩ := hourExprs_val tzdb sysOff ts _ hr e hee
    rw [hdt] at hmatch
    cases hmatch
    exact isZSecond_toUtcIsoExpr ..

theorem goodEntry_texprs (es : List (String × PyVal))
    (h : GoodStrs (strDictVals (.vdict es))) :
    GoodStrs (collectEntry ("time_expressions", .vdict es)) := by
  unfold collectEntry
  dsimp only
  rw [if_neg (by decide), if_pos rfl]
  exact h

/-! ## Helper lemmas for the resolution theorems -/

/-- Rendering an aware UTC datetime whose second-of-day is already in
range does not move the instant: the renormalization in `astimezone`
is the identity. -/
theorem toUtcIsoZ_utc_inrange (sysOff : Int) (dt : PyDateTime) (h0 : dt.off = some 0)
    (h1 : 0 ≤ dt.sod) (h2 : dt.sod < 86400) :
    toUtcIsoZ sysOff dt = fmtIsoZ { dt with micro := 0 } := by
  obtain ⟨days, sod, micro, off⟩ := dt
  simp only at h0 h1 h2
  subst h0
  unfold toUtcIsoZ astimezoneUtc addSeconds stripMicro
  dsimp only
  congr 1
  simp only [PyDateTime.mk.injEq]
  refine ⟨by omega, by omega, trivial, trivial⟩

/-- A key accepted by the relative-offset grammar starts with `in_`. -/
theorem matchRelative_shape (key : String) (x : Int × RelUnit × Option Int)
    (h : matchRelative key = some x) : ∃ rest, key.toList = 'i' :: 'n' :: '_' :: rest := by
  unfold matchRelative at h
  split at h
  · next rest heq => exact ⟨rest, heq⟩
  · exact absurd h (by simp)

/-- A key accepted by the relative-offset grammar is not a reserved
time modifier (it starts with `in_`, not `at_`, and differs from all
six fixed names). -/
theorem matchRelative_not_modifier (key : String) (x : Int × RelUnit × Option Int)
    (h : matchRelative key = some x) : isTimeModifierKey key = false := by
  obtain ⟨rest, hk⟩ := matchRelative_shape key x h
  have h1 : key ≠ "morning" := by
    intro he; rw [he, show ("morning" : String).toList = ['m', 'o', 'r', 'n', 'i', 'n', 'g']
      from rfl] at hk; simp at hk
  have h2 : key ≠ "afternoon" := by
    intro he
    rw [he, show ("afternoon" : String).toList = ['a', 'f', 't', 'e', 'r', 'n', 'o', 'o', 'n']
      from rfl] at hk
    simp at hk
  have h3 : key ≠ "evening" := by
    intro he; rw [he, show ("evening" : String).toList = ['e', 'v', 'e', 'n', 'i', 'n', 'g']
      from rfl] at hk; simp at hk
  have h4 : key ≠ "night" := by
    intro he; rw [he, show ("night" : String).toList = ['n', 'i', 'g', 'h', 't'] from rfl] at hk
    simp at hk
  have h5 : key ≠ "noon" := by
    intro he; rw [he, show ("noon" : String).toList = ['n', 'o', 'o', 'n'] from rfl] at hk
    simp at hk
  have h6 : key ≠ "midnight" := by
    intro he
    rw [he, show ("midnight" : String).toList = ['m', 'i', 'd', 'n', 'i', 'g', 'h', 't']
      from rfl] at hk
    simp at hk
  have h7 : startsWithAt key = false := by unfold startsWithAt; rw [hk]; rfl
  simp [isTimeModifierKey, h1, h2, h3, h4, h5, h6, h7]

/-- A selected time key is a reserved modifier token. -/
theorem findTimeKey_isModifier (ks : List String) (tk : String)
    (h : findTimeKey ks = some tk) : isTimeModifierKey tk = true := by
  induction ks with
  | nil => exact absurd h (by simp [findTimeKey])
  | cons k t ih =>
    unfold findTimeKey at h
    by_cases hk : isTimeModifierKey k = true
    · rw [if_pos hk] at h
      cases h
      exact hk
    · rw [if_neg hk] at h
      exact ih h

/-- A selected time key is nonempty. -/
theorem findTimeKey_ne_empty (ks : List String) (tk : String)
    (h : findTimeKey ks = some tk) : tk ≠ "" := by
  intro he
  have := findTimeKey_isModifier ks tk h
  rw [he] at this
  exact absurd this (by decide)

/-- An `at_`-prefixed modifier is none of the six fixed names. -/
theorem startsWithAt_timeMap_none (m : String) (h : startsWithAt m = true) :
    timeMap m = none := by
  unfold timeMap
  split_ifs with h1 h2 h3 h4 h5 h6
  · exact absurd (h1 ▸ h) (by decide)
  · exact absurd (h2 ▸ h) (by decide)
  · exact absurd (h3 ▸ h) (by decide)
  · exact absurd (h4 ▸ h) (by decide)
  · exact absurd (h5 ▸ h) (by decide)
  · exact absurd (h6 ▸ h) (by decide)
  · rfl

/-! ## Claim theorems -/

/-- C3 (counterexample): the spec's modifier table says afternoon sets
14:00, but the module maps afternoon to 13:00. -/
theorem afternoon_is_13_not_14 :
    apply_time_modifier 0 "2025-01-15T00:00:00Z" "afternoon" = some "2025-01-15T13:00:00Z" ∧
      apply_time_modifier 0 "2025-01-15T00:00:00Z" "afternoon" ≠ some "2025-01-15T14:00:00Z" := by
  constructor
  · decide
  · decide

/-- C3 (amended): for every parseable UTC base instant and each of the
six fixed modifier names, `apply_time_modifier` sets the instant's hour
to the module's table value — morning=07, afternoon=13, evening=18,
night=21, noon=12, midnight=00 — with minute, second and sub-seconds
zeroed, rendered as UTC with trailing `Z`. -/
theorem apply_time_modifier_fixed_table (sysOff : Int) (base m : String) (h : Int)
    (dt : PyDateTime) (hparse : parseIso (pyNormalizeZ base) = some dt)
    (hoff : dt.off = some 0) (htm : timeMap m = some h) :
    apply_time_modifier sysOff base m =
      some (fmtIsoZ { dt with sod := h * 3600, micro := 0 }) ∧
    (m = "morning" → h = 7) ∧ (m = "afternoon" → h = 13) ∧ (m = "evening" → h = 18) ∧
      (m = "night" → h = 21) ∧ (m = "noon" → h = 12) ∧ (m = "midnight" → h = 0) := by
  have hrange : 0 ≤ h ∧ h ≤ 23 := by
    unfold timeMap at htm
    split_ifs at htm <;> (cases htm; omega)
  have heq : apply_time_modifier sysOff base m =
      some (toUtcIsoZ sysOff (replaceTimeHM dt h 0)) := by
    unfold apply_time_modifier
    rw [hparse, htm]
  have hin : toUtcIsoZ sysOff (replaceTimeHM dt h 0) =
      fmtIsoZ { dt with sod := h * 3600, micro := 0 } := by
    have := toUtcIsoZ_utc_inrange sysOff (replaceTimeHM dt h 0) (by simp [replaceTimeHM, hoff])
      (by simp [replaceTimeHM]; omega) (by simp [replaceTimeHM]; omega)
    rw [this]
    simp [replaceTimeHM]
  refine ⟨heq.trans (by rw [hin]), ?_, ?_, ?_, ?_, ?_, ?_⟩ <;>
    (intro hm; rw [hm] at htm; simp [timeMap] at htm; omega)

/-- C3 (witness): the amended theorem at a concrete input. -/
theorem apply_time_modifier_fixed_table_witness :
    apply_time_modifier 0 "2025-01-15T00:00:00Z" "afternoon" = some "2025-01-15T13:00:00Z" := by
  have h := apply_time_modifier_fixed_table 0 "2025-01-15T00:00:00Z" "afternoon" 13
    (mkDateTime 2025 1 15 0 0 0 0 (some 0)) (by decide) (by decide) (by decide)
  exact h.1.trans (by decide)

/-- C10: for a parseable UTC base instant and an `at_`-prefixed
modifier whose remainder matches neither 12-hour-clock pattern,
`apply_time_modifier` does not fail: the time-string parser falls back
to `(0, 0)`, so the result is the base date at midnight, rendered as
UTC with trailing `Z`. -/
theorem apply_time_modifier_at_fallback_midnight (sysOff : Int) (base m : String)
    (dt : PyDateTime) (hparse : parseIso (pyNormalizeZ base) = some dt)
    (hoff : dt.off = some 0) (hat : startsWithAt m = true)
    (hm1 : matchTimeHM (dropAt m).toList = none) (hm2 : matchTimeH (dropAt m).toList = none) :
    apply_time_modifier sysOff base m = some (fmtIsoZ { dt with sod := 0, micro := 0 }) ∧
      (∀ base2 m2 dt2, parseIso (pyNormalizeZ base2) = some dt2 →
        apply_time_modifier sysOff base2 m2 ≠ none) := by
  refine ⟨?_, ?_⟩
  case refine_2 =>
    intro base2 m2 dt2 hp2
    unfold apply_time_modifier
    rw [hp2]
    simp
  have hfall : parse_time_string (dropAt m) = (0, 0) := by
    unfold parse_time_string
    rw [hm1, hm2]
  have heq : apply_time_modifier sysOff base m =
      some (toUtcIsoZ sysOff (replaceTimeHM dt 0 0)) := by
    unfold apply_time_modifier
    rw [hparse, startsWithAt_timeMap_none m hat, hat, hfall]
    simp
  rw [heq, toUtcIsoZ_utc_inrange sysOff (replaceTimeHM dt 0 0) (by simp [replaceTimeHM, hoff])
    (by simp [replaceTimeHM]) (by simp [replaceTimeHM])]
  simp [replaceTimeHM]

/-- C10 (witness): `at_someday` yields midnight of the base date. -/
theorem apply_time_modifier_at_fallback_midnight_witness :
    apply_time_modifier 0 "2025-01-15T00:00:00Z" "at_someday" = some "2025-01-15T00:00:00Z" := by
  have h := apply_time_modifier_at_fallback_midnight 0 "2025-01-15T00:00:00Z" "at_someday"
    (mkDateTime 2025 1 15 0 0 0 0 (some 0)) (by decide) (by decide) (by decide) (by decide)
    (by decide)
  exact h.1.trans (by decide)

/-- C5: a key accepted by the relative-offset grammar, in a context
with a parseable reference instant, resolves to exactly the reference
plus `N` of the stated unit plus the optional `M` extra minutes,
rendered as UTC ISO-8601 with second precision and trailing `Z`; and
the reference selection prefers `current.datetime` (when it is a
nonempty string) over `current.utc_start_of_day`. -/
theorem resolve_relative_time_adds_offset (sysOff : Int) (ctx : PyVal) (key s : String)
    (n : Int) (u : RelUnit) (m2 : Option Int) (dt : PyDateTime)
    (hmatch : matchRelative key = some (n, u, m2)) (hnow : nowStrOf ctx = some s)
    (hparse : parseIso (pyNormalizeZ s) = some dt) :
    resolve_relative_time sysOff key ctx =
        some (toUtcIsoZ sysOff (addSeconds dt ((n * u.minutesPer + m2.getD 0) * 60))) ∧
      isZSecondString (toUtcIsoZ sysOff (addSeconds dt ((n * u.minutesPer + m2.getD 0) * 60))) =
        true ∧
      (∀ cur ds, ctx.get "current" = some cur → cur.get "datetime" = some (.vstr ds) →
        ds ≠ "" → nowStrOf ctx = some ds) := by
  refine ⟨?_, isZSecond_toUtcIsoZ .., ?_⟩
  · unfold resolve_relative_time
    rw [hmatch, hnow]
    dsimp only
    rw [hparse]
    cases m2 <;> simp
  · intro cur ds hc hd hne
    have hc2 : ctx.getD "current" (.vdict []) = cur := by simp [PyVal.getD, hc]
    have hd2 : cur.getD "datetime" PyVal.vnone = .vstr ds := by simp [PyVal.getD, hd]
    unfold nowStrOf
    simp only [hc2, hd2]
    simp [pyTruthy, hne]

/-- C5 (witness): `in_1_hours_30_minutes` against a context whose
current datetime is `2025-01-15T10:00:00Z` resolves to
`2025-01-15T11:30:00Z`. -/
theorem resolve_relative_time_adds_offset_witness :
    resolve_relative_time 0 "in_1_hours_30_minutes"
        (.vdict [("current", .vdict [("datetime", .vstr "2025-01-15T10:00:00Z")])]) =
      some "2025-01-15T11:30:00Z" := by
  have h := resolve_relative_time_adds_offset 0
    (.vdict [("current", .vdict [("datetime", .vstr "2025-01-15T10:00:00Z")])])
    "in_1_hours_30_minutes" "2025-01-15T10:00:00Z" 1 RelUnit.hours (some 30)
    (mkDateTime 2025 1 15 10 0 0 0 (some 0)) (by decide) (by decide) (by decide)
  exact h.1.trans (by decide)



/-- C1: evaluating the code at the failing input: resolving
`["tomorrow", "morning"]` yields both the combined `07:00` instant and
the bare `00:00` date — the bare date is not removed, although the
repository's own test (`test_date_with_time_modifier`) and the claim
require it to be absent. -/
theorem combined_keeps_bare_date :
    resolve_date_keys 0 [.vstr "tomorrow", .vstr "morning"] ctxTomorrow =
        (["2025-01-16T00:00:00Z", "2025-01-16T07:00:00Z"], []) ∧
      "2025-01-16T00:00:00Z" ∈
        (resolve_date_keys 0 [.vstr "tomorrow", .vstr "morning"] ctxTomorrow).1 := by
  decide

/-- C2 (counterexample): a grammar-matching key with no usable
reference instant is not dropped: it is reported in the unresolved
list. -/
theorem unref_relative_key_not_dropped :
    resolve_date_keys 0 [.vstr "in_30_minutes"] (.vdict []) = ([], ["in_30_minutes"]) := by
  decide

/-- C2 (amended): a normalized key matching the relative-offset grammar
whose context provides no parseable reference instant falls through to
the generic lookup; absent from the flattened context, it contributes
nothing to `resolved` and is recorded in `unresolved`. -/
theorem unref_relative_key_unresolved (sysOff : Int) (ctx : PyVal) (key0 key : String)
    (n : Int) (u : RelUnit) (m2 : Option Int)
    (hnorm : normalize_date_key key0 = key)
    (hmatch : matchRelative key = some (n, u, m2))
    (href : nowStrOf ctx = none ∨ ∃ s, nowStrOf ctx = some s ∧ parseIso (pyNormalizeZ s) = none)
    (hflat : dictFind (flatten_date_context ctx) key = none) :
    resolve_date_keys sysOff [.vstr key0] ctx = ([], [key]) := by
  have hrel : resolve_relative_time sysOff key ctx = none := by
    unfold resolve_relative_time
    rw [hmatch]
    rcases href with h | ⟨s, hs, hp⟩
    · rw [h]
    · rw [hs]
      dsimp only
      rw [hp]
  have hmod := matchRelative_not_modifier key _ hmatch
  unfold resolve_date_keys
  simp [hnorm, hrel, hmod, hflat, resolveStep, resolveLookup, findDateKey, findTimeKey,
    combineStep, dedupFirst, dedupFirstAux]

/-- C2 (witness): the amended behavior at a concrete input. -/
theorem unref_relative_key_unresolved_witness :
    resolve_date_keys 0 [.vstr "in_2_hours"] (.vdict []) = ([], ["in_2_hours"]) := by
  exact unref_relative_key_unresolved 0 (.vdict []) "in_2_hours" "in_2_hours" 2 RelUnit.hours
    none (by decide) (by decide) (Or.inl rfl) rfl

/-- C9 (counterexample): the empty key is not discarded: it is
normalized to `""` and reported unresolved. -/
theorem empty_key_not_discarded :
    resolve_date_keys 0 [.vstr ""] (.vdict []) = ([], [""]) := by
  decide

/-- C9 (amended): non-string keys are discarded before resolution, but
an empty or whitespace-only key is normalized to `""` and reported in
`unresolved` (when the flattened context has no entry for `""`). -/
theorem nonstring_discarded_empty_unresolved (sysOff : Int) (ctx : PyVal) (v : PyVal)
    (raw : String) (hv : ∀ s, v ≠ .vstr s) (hraw : pyStrip raw.toList = [])
    (hflat : dictFind (flatten_date_context ctx) "" = none) :
    resolve_date_keys sysOff [v] ctx = ([], []) ∧
      resolve_date_keys sysOff [.vstr raw] ctx = ([], [""]) := by
  constructor
  · have hnostr : (match v with | .vstr s => some (normalize_date_key s) | _ => none) =
        (none : Option String) := by
      cases v with
      | vstr s => exact absurd rfl (hv s)
      | _ => rfl
    unfold resolve_date_keys
    simp [hnostr, findDateKey, findTimeKey, combineStep, dedupFirst, dedupFirstAux]
  · have hnorm : normalize_date_key raw = "" := by
      unfold normalize_date_key
      rw [hraw]
      rfl
    have hrel : resolve_relative_time sysOff "" ctx = none := rfl
    unfold resolve_date_keys
    simp [hnorm, hrel, hflat, resolveStep, resolveLookup, findDateKey, findTimeKey,
      combineStep, dedupFirst, dedupFirstAux, isTimeModifierKey, startsWithAt]

/-- C9 (witness): the amended behavior at concrete inputs (a list
value as the non-string key, a whitespace-only string key). -/
theorem nonstring_discarded_empty_unresolved_witness :
    resolve_date_keys 0 [.vlist []] (.vdict []) = ([], []) ∧
      resolve_date_keys 0 [.vstr "   "] (.vdict []) = ([], [""]) := by
  exact nonstring_discarded_empty_unresolved 0 (.vdict []) (.vlist []) "   "
    (fun s => by simp) (by decide) rfl



/-- C4 (counterexample): with keys `["this_weekend", "morning"]`, the
first key's flattened value is a list of strings, yet no combination
happens: the date-key selection skips list values, so the combined
`07:00` instants are absent even though `apply_time_modifier` would
produce them. -/
theorem list_valued_key_not_selected :
    resolve_date_keys 0 [.vstr "this_weekend", .vstr "morning"] ctxWeekendList =
        (["2025-01-18T00:00:00Z", "2025-01-19T00:00:00Z"], []) ∧
      apply_time_modifier 0 "2025-01-18T00:00:00Z" "morning" = some "2025-01-18T07:00:00Z" ∧
      "2025-01-18T07:00:00Z" ∉
        (resolve_date_keys 0 [.vstr "this_weekend", .vstr "morning"] ctxWeekendList).1 := by
  decide



/-- C4 (amended): the chosen date key is the first normalized key, in
input order, whose flattened value is a scalar string (list-valued
keys are skipped); when a date key and a time key both exist, the
modifier is applied to the date key's scalar value and the combined
result is appended. -/
theorem date_key_selection_scalar_only (sysOff : Int) (flat : List (String × PyVal))
    (ks resolved : List String) (dk tk base c : String) :
    findDateKey flat ks = ks.find? (isScalarStrAt flat) ∧
      (findDateKey flat ks = some dk → findTimeKey ks = some tk → dk ≠ "" →
        dictFind flat dk = some (.vstr base) → apply_time_modifier sysOff base tk = some c →
        c ≠ "" → combineStep sysOff flat ks resolved = resolved ++ [c]) := by
  constructor
  · induction ks with
    | nil => rfl
    | cons k t ih =>
      unfold findDateKey
      rcases h : dictFind flat k with _ | v
      · rw [List.find?_cons_of_neg _ (by simp [isScalarStrAt, h]), ih]
      · cases v with
        | vstr s => rw [List.find?_cons_of_pos _ (by simp [isScalarStrAt, h])]
        | _ =>
          rw [List.find?_cons_of_neg _ (by simp [isScalarStrAt, h]), ih]
  · intro hdk htk hdkne hbase happ hcne
    have htkne := findTimeKey_ne_empty ks tk htk
    unfold combineStep
    rw [hdk, htk]
    dsimp only
    rw [if_pos ⟨hdkne, htkne⟩, hbase]
    dsimp only
    rw [happ]
    dsimp only
    rw [if_pos hcne]

/-- C4 (witness): the amended combination at a concrete input. -/
theorem date_key_selection_scalar_only_witness :
    combineStep 0 [("tomorrow", .vstr "2025-01-16T00:00:00Z")] ["tomorrow", "morning"]
        ["2025-01-16T00:00:00Z"] = ["2025-01-16T00:00:00Z", "2025-01-16T07:00:00Z"] := by
  have h := (date_key_selection_scalar_only 0 [("tomorrow", .vstr "2025-01-16T00:00:00Z")]
    ["tomorrow", "morning"] ["2025-01-16T00:00:00Z"] "tomorrow" "morning"
    "2025-01-16T00:00:00Z" "2025-01-16T07:00:00Z").2 rfl rfl (by decide) rfl rfl (by decide)
  exact h.trans (by decide)



/-- C6: `generate_date_context_object` never fails on a bad timezone:
an unrecognized name falls back to `"UTC"` in
`timezone.user_timezone`, while a recognized (nonempty) name is kept
verbatim. -/
theorem generate_context_timezone_fallback (tzdb : String → Option PyTz) (sysOff : Int)
    (utcNow : PyDateTime) (ts : String) :
    (tzdb ts = none →
      userTimezoneOf (generate_date_context_object tzdb sysOff utcNow (some ts)) =
        some (.vstr "UTC")) ∧
    (∀ tzv, tzdb ts = some tzv → ts ≠ "" →
      userTimezoneOf (generate_date_context_object tzdb sysOff utcNow (some ts)) =
        some (.vstr ts)) := by
  constructor
  · intro h
    by_cases hts : ts = ""
    · simp [generate_date_context_object, hts, userTimezoneOf, PyVal.getD, PyVal.get, dictFind]
    · simp [generate_date_context_object, h, hts, userTimezoneOf, PyVal.getD, PyVal.get,
        dictFind]
  · intro tzv h hne
    simp [generate_date_context_object, h, hne, userTimezoneOf, PyVal.getD, PyVal.get, dictFind]



/-- C6 (witness): the fallback and the pass-through at concrete
timezone names. -/
theorem generate_context_timezone_fallback_witness :
    userTimezoneOf (generate_date_context_object tzdbOne 0
        (mkDateTime 2025 1 15 10 0 0 0 (some 0)) (some "Invalid/Timezone")) =
      some (.vstr "UTC") ∧
    userTimezoneOf (generate_date_context_object tzdbOne 0
        (mkDateTime 2025 1 15 10 0 0 0 (some 0)) (some "America/New_York")) =
      some (.vstr "America/New_York") := by
  constructor
  · exact (generate_context_timezone_fallback tzdbOne 0
      (mkDateTime 2025 1 15 10 0 0 0 (some 0)) "Invalid/Timezone").1 rfl
  · exact (generate_context_timezone_fallback tzdbOne 0
      (mkDateTime 2025 1 15 10 0 0 0 (some 0)) "America/New_York").2
      { name := "America/New_York", offAt := fun _ => -300, dstAt := fun _ => 0 } rfl
      (by decide)

/-- C8: the weekend dates of the generator (the `weekendDts` block it
builds the `weekend` buckets from) satisfy the claimed offsets: fixed
day offsets from today on Saturday/Sunday, and otherwise this Saturday
at `(5 - weekday) mod 7` days ahead, this Sunday the day after, with
last/next weekend exactly the ∓7-day shifts of this weekend. -/
theorem weekend_offsets (now : PyDateTime) :
    (now.weekday = 5 → weekendDts now =
      (now, addDays now 1, addDays now (-7), addDays now (-6), addDays now 7,
        addDays now 8)) ∧
    (now.weekday = 6 → weekendDts now =
      (addDays now (-1), now, addDays now (-8), addDays now (-7), addDays now 6,
        addDays now 7)) ∧
    (now.weekday ≠ 5 → now.weekday ≠ 6 →
      (weekendDts now).1 = addDays now ((5 - now.weekday) % 7) ∧
      (weekendDts now).2.1 = addDays (weekendDts now).1 1 ∧
      (weekendDts now).2.2.1 = addDays (weekendDts now).1 (-7) ∧
      (weekendDts now).2.2.2.1 = addDays (weekendDts now).2.1 (-7) ∧
      (weekendDts now).2.2.2.2.1 = addDays (weekendDts now).1 7 ∧
      (weekendDts now).2.2.2.2.2 = addDays (weekendDts now).2.1 7) := by
  have hw := weekday_range now
  refine ⟨?_, ?_, ?_⟩
  · intro h
    unfold weekendDts
    rw [if_pos h]
  · intro h
    unfold weekendDts
    rw [if_neg (by omega), if_pos h]
  · intro h5 h6
    unfold weekendDts
    rw [if_neg h5, if_neg h6]
    dsimp only
    refine ⟨rfl, rfl, ?_, ?_, rfl, rfl⟩
    · rw [addDays_addDays]
      congr 1
      omega
    · rw [addDays_addDays, addDays_addDays, addDays_addDays]
      congr 1
      omega

/-- C8 (witness): the weekday-branch offsets at a concrete Wednesday.
2025-01-15 has weekday 2, so this Saturday is three days ahead and
last Saturday is the −7-day shift of it. -/
theorem weekend_offsets_witness :
    (weekendDts (mkDateTime 2025 1 15 0 0 0 0 (some 0))).2.2.1 =
      addDays (weekendDts (mkDateTime 2025 1 15 0 0 0 0 (some 0))).1 (-7) :=
  ((weekend_offsets (mkDateTime 2025 1 15 0 0 0 0 (some 0))).2.2 (by decide) (by decide)).2.2.1

set_option maxHeartbeats 2000000 in
/-- C7: every datetime-instant string of a generated context — the
current `datetime`, every `utc_start_of_day`, `last_night`'s
`datetime`, and every `time_expressions` value — is a UTC instant with
second-level precision and a literal trailing `Z`, with no numeric
offset and no sub-second part. -/
theorem context_instants_utc_z (tzdb : String → Option PyTz) (sysOff : Int)
    (utcNow : PyDateTime) (tzStr0 : Option String) (s : String)
    (hs : s ∈ collectInstants (generate_date_context_object tzdb sysOff utcNow tzStr0)) :
    isZSecondString s = true := by
  refine (fun (h : GoodStrs _) => h s hs) ?_
  unfold generate_date_context_object
  dsimp only
  refine goodVal_vdict _ (goodDict_cons _ _ ?_ (goodDict_cons _ _ ?_ (goodDict_cons _ _ ?_
    (goodDict_cons _ _ ?_ (goodDict_cons _ _ ?_ (goodDict_cons _ _ ?_ (goodDict_cons _ _ ?_
    (goodDict_cons _ _ ?_ (goodDict_cons _ _ ?_ goodDict_nil)))))))))
  · -- current
    refine goodEntry_plain _ _ (by decide) (by decide) ?_
    refine goodVal_vdict _ (goodDict_cons _ _ ?_ (goodDict_cons _ _ ?_ (goodDict_cons _ _ ?_
      (goodDict_cons _ _ ?_ (goodDict_cons _ _ ?_ (goodDict_cons _ _ ?_ (goodDict_cons _ _ ?_
      goodDict_nil)))))))
    · exact goodEntry_plain _ _ (by decide) (by decide) (goodVal_leaf _ rfl)
    · exact goodEntry_plain _ _ (by decide) (by decide) (goodVal_leaf _ rfl)
    · exact goodEntry_plain _ _ (by decide) (by decide) (goodVal_leaf _ rfl)
    · exact goodEntry_instant _ _ (isZSecond_toUtcIsoZ ..)
    · exact goodEntry_plain _ _ (by decide) (by decide) (goodVal_leaf _ rfl)
    · exact goodEntry_plain _ _ (by decide) (by decide) (goodVal_leaf _ rfl)
    · exact goodEntry_instant _ _ (isZSecond_usod ..)
  · -- relative_dates
    refine goodEntry_plain _ _ (by decide) (by decide) ?_
    refine goodVal_vdict _ (goodDict_cons _ _ ?_ (goodDict_cons _ _ ?_ (goodDict_cons _ _ ?_
      (goodDict_cons _ _ ?_ (goodDict_cons _ _ ?_ goodDict_nil)))))
    · refine goodEntry_plain _ _ (by decide) (by decide) ?_
      refine goodVal_vdict _ (goodDict_cons _ _ ?_ (goodDict_cons _ _ ?_ goodDict_nil))
      · exact goodEntry_plain _ _ (by decide) (by decide) (goodVal_leaf _ rfl)
      · exact goodEntry_instant _ _ (isZSecond_usod ..)
    · refine goodEntry_plain _ _ (by decide) (by decide) ?_
      refine goodVal_vdict _ (goodDict_cons _ _ ?_ (goodDict_cons _ _ ?_ goodDict_nil))
      · exact goodEntry_plain _ _ (by decide) (by decide) (goodVal_leaf _ rfl)
      · exact goodEntry_instant _ _ (isZSecond_usod ..)
    · refine goodEntry_plain _ _ (by decide) (by decide) ?_
      refine goodVal_vdict _ (goodDict_cons _ _ ?_ (goodDict_cons _ _ ?_ (goodDict_cons _ _ ?_
        goodDict_nil)))
      · exact goodEntry_plain _ _ (by decide) (by decide) (goodVal_leaf _ rfl)
      · exact goodEntry_plain _ _ (by decide) (by decide) (goodVal_leaf _ rfl)
      · exact goodEntry_instant _ _ (isZSecond_lastNight ..)
    · refine goodEntry_plain _ _ (by decide) (by decide) ?_
      refine goodVal_vdict _ (goodDict_cons _ _ ?_ (goodDict_cons _ _ ?_ goodDict_nil))
      · exact goodEntry_plain _ _ (by decide) (by decide) (goodVal_leaf _ rfl)
      · exact goodEntry_instant _ _ (isZSecond_usod ..)
    · refine goodEntry_plain _ _ (by decide) (by decide) ?_
      refine goodVal_vdict _ (goodDict_cons _ _ ?_ (goodDict_cons _ _ ?_ goodDict_nil))
      · exact goodEntry_plain _ _ (by decide) (by decide) (goodVal_leaf _ rfl)
      · exact goodEntry_instant _ _ (isZSecond_usod ..)
  · -- weekend
    refine goodEntry_plain _ _ (by decide) (by decide) ?_
    refine goodVal_vdict _ (goodDict_cons _ _ ?_ (goodDict_cons _ _ ?_ (goodDict_cons _ _ ?_
      goodDict_nil)))
    · exact goodEntry_plain _ _ (by decide) (by decide) (goodVal_vlist _ (goodList_cons _ _
        (good_weekendItem _ _ _ _ _) (goodList_cons _ _ (good_weekendItem _ _ _ _ _) goodList_nil)))
    · exact goodEntry_plain _ _ (by decide) (by decide) (goodVal_vlist _ (goodList_cons _ _
        (good_weekendItem _ _ _ _ _) (goodList_cons _ _ (good_weekendItem _ _ _ _ _) goodList_nil)))
    · exact goodEntry_plain _ _ (by decide) (by decide) (goodVal_vlist _ (goodList_cons _ _
        (good_weekendItem _ _ _ _ _) (goodList_cons _ _ (good_weekendItem _ _ _ _ _) goodList_nil)))
  · -- weeks
    refine goodEntry_plain _ _ (by decide) (by decide) ?_
    refine goodVal_vdict _ (goodDict_cons _ _ ?_ (goodDict_cons _ _ ?_ (goodDict_cons _ _ ?_
      goodDict_nil)))
    · exact goodEntry_plain _ _ (by decide) (by decide)
        (goodVal_vlist _ (goodList_map _ _ fun i => good_weekItem _ _ _ _ _ _))
    · exact goodEntry_plain _ _ (by decide) (by decide)
        (goodVal_vlist _ (goodList_map _ _ fun i => good_weekItem _ _ _ _ _ _))
    · exact goodEntry_plain _ _ (by decide) (by decide)
        (goodVal_vlist _ (goodList_map _ _ fun i => good_weekItem _ _ _ _ _ _))
  · -- months
    refine goodEntry_plain _ _ (by decide) (by decide) ?_
    refine goodVal_vdict _ (goodDict_cons _ _ ?_ (goodDict_cons _ _ ?_ (goodDict_cons _ _ ?_
      goodDict_nil)))
    · exact goodEntry_plain _ _ (by decide) (by decide) (goodVal_vlist _ (goodList_cons _ _
        (good_dateItem _ _ _ _) (goodList_cons _ _ (good_dateItem _ _ _ _) goodList_nil)))
    · exact goodEntry_plain _ _ (by decide) (by decide) (goodVal_vlist _ (goodList_cons _ _
        (good_dateItem _ _ _ _) (goodList_cons _ _ (good_dateItem _ _ _ _) goodList_nil)))
    · exact goodEntry_plain _ _ (by decide) (by decide) (goodVal_vlist _ (goodList_cons _ _
        (good_dateItem _ _ _ _) (goodList_cons _ _ (good_dateItem _ _ _ _) goodList_nil)))
  · -- years
    refine goodEntry_plain _ _ (by decide) (by decide) ?_
    refine goodVal_vdict _ (goodDict_cons _ _ ?_ (goodDict_cons _ _ ?_ (goodDict_cons _ _ ?_
      goodDict_nil)))
    · exact goodEntry_plain _ _ (by decide) (by decide) (goodVal_vlist _ (goodList_cons _ _
        (good_dateItem _ _ _ _) (goodList_cons _ _ (good_dateItem _ _ _ _) goodList_nil)))
    · exact goodEntry_plain _ _ (by decide) (by decide) (goodVal_vlist _ (goodList_cons _ _
        (good_dateItem _ _ _ _) (goodList_cons _ _ (good_dateItem _ _ _ _) goodList_nil)))
    · exact goodEntry_plain _ _ (by decide) (by decide) (goodVal_vlist _ (goodList_cons _ _
        (good_dateItem _ _ _ _) (goodList_cons _ _ (good_dateItem _ _ _ _) goodList_nil)))
  · -- weekdays
    refine goodEntry_plain _ _ (by decide) (by decide) ?_
    refine goodVal_vdict _ (goodDict_append _ _ ?_ ?_)
    · refine goodDict_map _ _ ?_
      intro a ha
      fin_cases ha <;> exact good_weekdayEntry tzdb sysOff _ _ _ _ _ (by decide) (by decide)
    · refine goodDict_map _ _ ?_
      intro a ha
      fin_cases ha <;> exact good_weekdayEntry tzdb sysOff _ _ _ _ _ (by decide) (by decide)
  · -- timezone
    refine goodEntry_plain _ _ (by decide) (by decide) ?_
    refine goodVal_vdict _ (goodDict_cons _ _ ?_ (goodDict_cons _ _ ?_ (goodDict_cons _ _ ?_
      goodDict_nil)))
    · exact goodEntry_plain _ _ (by decide) (by decide) (goodVal_leaf _ rfl)
    · exact goodEntry_plain _ _ (by decide) (by decide) (goodVal_leaf _ rfl)
    · exact goodEntry_plain _ _ (by decide) (by decide) (goodVal_leaf _ rfl)
  · -- time_expressions
    exact goodEntry_texprs _ (good_texprs _ _ _ _)

/-- C7 (witness): the shape of a concrete collected instant. -/
theorem context_instants_utc_z_witness : isZSecondString "2025-01-15T00:00:00Z" = true :=
  context_instants_utc_z (fun _ => none) 0 (mkDateTime 2025 1 15 10 0 0 0 (some 0))
    (some "UTC") "2025-01-15T00:00:00Z" (by decide)

end JarvisMcp
